import Mathlib

/-!
Verification development for the business-health-check repository.

The TypeScript core (scoring engine, warnings engine, decision engine,
simulation engine, sector normalizer, benchmark repository) is shallowly
embedded: JavaScript numbers are modelled as exact rationals (ℚ),
`Math.round` as `jsRound`, optional fields as `Option`, thrown lookup
errors as `Except String`, and the `Date.now()` clock read in the
simulation engine as an explicit `now : ℤ` parameter.
-/

/-- JavaScript `Math.round`: round half-up, i.e. `⌊x + 1/2⌋`
(`Rat.floor` keeps the definition kernel-computable). -/
def jsRound (x : ℚ) : ℤ := (x + 1/2).floor

/-- `jsRound` agrees with the mathematical floor, for use with `norm_num`. -/
theorem jsRound_eq (x : ℚ) : jsRound x = ⌊x + 1/2⌋ := by
  rw [jsRound, Rat.floor_def', Rat.floor_def]

/-- `Math.round(x * 10) / 10`: round to one decimal, as used on every returned score. -/
def round1 (x : ℚ) : ℚ := (jsRound (x * 10) : ℚ) / 10

/-- Stand-in for JavaScript number-to-string template interpolation.
Only used to build warning / summary message strings; no theorem inspects it. -/
def numStr (q : ℚ) : String :=
  if q.den = 1 then toString q.num else toString q.num ++ "/" ++ toString q.den

-- ============= Data model (src/types/audit.ts) =============

/-- `FinanceData` from src/types/audit.ts. -/
structure FinanceData where
  annualRevenue : ℚ
  grossMarginPercent : ℚ
  netMarginPercent : Option ℚ
  cashRunwayMonths : Option ℚ
  deriving DecidableEq

/-- `CostsData` from src/types/audit.ts. -/
structure CostsData where
  hrCostsPercent : ℚ
  cogsPercent : Option ℚ
  fixedCostsPercent : Option ℚ
  deriving DecidableEq

/-- `ProductivityData` from src/types/audit.ts. -/
structure ProductivityData where
  fte : ℚ
  revenuePerFte : Option ℚ
  deriving DecidableEq

/-- `QualityData` from src/types/audit.ts. -/
structure QualityData where
  returnRatePercent : Option ℚ
  incidentsPerMonth : Option ℚ
  deriving DecidableEq

/-- `OpsData` from src/types/audit.ts. -/
structure OpsData where
  occupancyRatePercent : ℚ
  productivity : ProductivityData
  quality : Option QualityData
  deriving DecidableEq

/-- `HRData` from src/types/audit.ts. -/
structure HRData where
  absenteeismRatePercent : Option ℚ
  turnoverRatePercent : Option ℚ
  deriving DecidableEq

/-- `SatisfactionData` from src/types/audit.ts. -/
structure SatisfactionData where
  csatPercent : Option ℚ
  nps : Option ℚ
  deriving DecidableEq

/-- `CommercialData` from src/types/audit.ts. -/
structure CommercialData where
  digitalizationPercent : ℚ
  loyaltyPercent : Option ℚ
  satisfaction : Option SatisfactionData
  deriving DecidableEq

/-- `AuditDataV2` from src/types/audit.ts (the canonical nested schema).
`auditDate` and `dataOrigin` are carried as plain strings. -/
structure AuditDataV2 where
  businessName : String
  sector : String
  variant : Option String
  auditDate : String
  dataOrigin : String
  finance : FinanceData
  costs : CostsData
  ops : OpsData
  hr : Option HRData
  commercial : CommercialData
  nbServices : Option ℚ
  deriving DecidableEq

/-- `AuditDataV1` from src/types/audit.ts (legacy flat schema). -/
structure AuditDataV1 where
  nom : String
  secteur : String
  variant : Option String
  margebrutepct : ℚ
  caannuel : ℚ
  effectifetp : ℚ
  chargesrhpct : ℚ
  digitalpct : ℚ
  fidelisationpct : ℚ
  tauxoccupation : ℚ
  nbservices : ℚ
  deriving DecidableEq

/-- `AuditData = AuditDataV1 | AuditDataV2` union from src/types/audit.ts. -/
inductive AuditData where
  | v1 (d : AuditDataV1)
  | v2 (d : AuditDataV2)
  deriving DecidableEq

/-- `convertV1ToV2` from src/types/audit.ts (the audit date is the conversion
instant date string; it feeds no computation). -/
def convertV1ToV2 (d : AuditDataV1) : AuditDataV2 :=
  { businessName := d.nom
    sector := d.secteur
    variant := d.variant
    auditDate := ""
    dataOrigin := "manual"
    finance :=
      { annualRevenue := d.caannuel
        grossMarginPercent := d.margebrutepct
        netMarginPercent := none
        cashRunwayMonths := none }
    costs :=
      { hrCostsPercent := d.chargesrhpct
        cogsPercent := none
        fixedCostsPercent := none }
    ops :=
      { occupancyRatePercent := d.tauxoccupation * 100
        productivity :=
          { fte := d.effectifetp
            revenuePerFte := some (d.caannuel / max d.effectifetp (1/10)) }
        quality := none }
    hr := none
    commercial :=
      { digitalizationPercent := d.digitalpct
        loyaltyPercent := some d.fidelisationpct
        satisfaction := none }
    nbServices := some d.nbservices }

/-- `normalizeToV2` from src/types/audit.ts. -/
def normalizeToV2 : AuditData → AuditDataV2
  | .v1 d => convertV1ToV2 d
  | .v2 d => d

/-- `Scores` from src/types/audit.ts. -/
structure Scores where
  global : ℚ
  financier : ℚ
  operationnel : ℚ
  commercial : ℚ
  strategique : ℚ
  deriving DecidableEq

-- ============= Benchmark repository (src/lib/benchmarks.ts) =============

/-- `ThresholdSet` from src/lib/benchmarks.ts. -/
structure ThresholdSet where
  crit : ℚ
  bon : ℚ
  excellent : ℚ
  deriving DecidableEq

/-- `MetricDefinition.unit` values from src/lib/benchmarks.ts. -/
inductive MetricUnit where
  | ratioUnit
  | ratioInverseUnit
  | amountUnit
  | percentageUnit
  deriving DecidableEq

/-- `MetricDefinition` from src/lib/benchmarks.ts. -/
structure MetricDefinition where
  unit : MetricUnit
  thresholds : ThresholdSet
  deriving DecidableEq

/-- The `metrics` record of one sector variant. Every variant of the static
table holds exactly these five keys, and the scoring engine reads exactly
these five, so the string-keyed record is embedded as a fixed structure. -/
structure BenchmarkMetrics where
  marge_brute : MetricDefinition
  ca_etp : MetricDefinition
  charges_rh : MetricDefinition
  digital_pct : MetricDefinition
  fidelisation : MetricDefinition
  deriving DecidableEq

/-- `SectorVariant` from src/lib/benchmarks.ts. -/
structure SectorVariant where
  id : String
  description : String
  metrics : BenchmarkMetrics
  deriving DecidableEq

/-- `Sector` from src/lib/benchmarks.ts; `variants` keeps the object
insertion order as an association list. -/
structure Sector where
  default_variant : String
  variants : List (String × SectorVariant)
  deriving DecidableEq

/-- Association-list lookup mirroring JavaScript `obj[key]` on a string-keyed
record (keys are unique in all tables embedded here). -/
def lookupPairs {α : Type} (k : String) : List (String × α) → Option α
  | [] => none
  | (k', v) :: t => if k' == k then some v else lookupPairs k t

/-- Helper to build the metric set of one variant. -/
def mkMetrics (mb ce cr dp fid : ThresholdSet) : BenchmarkMetrics :=
  { marge_brute := { unit := .ratioUnit, thresholds := mb }
    ca_etp := { unit := .amountUnit, thresholds := ce }
    charges_rh := { unit := .ratioInverseUnit, thresholds := cr }
    digital_pct := { unit := .percentageUnit, thresholds := dp }
    fidelisation := { unit := .percentageUnit, thresholds := fid } }

/-- `PARAM_SECTEUR.sectors` static table from src/lib/benchmarks.ts,
in declaration order. -/
def PARAM_SECTEUR_sectors : List (String × Sector) :=
  [ ("Vétérinaire",
      { default_variant := "veto_standard"
        variants :=
          [ ("veto_standard",
              { id := "veto_standard"
                description := "Clinique vétérinaire standard urbaine"
                metrics := mkMetrics
                  ⟨55/100, 70/100, 75/100⟩ ⟨70000, 100000, 130000⟩
                  ⟨70/100, 55/100, 50/100⟩ ⟨30, 80, 95⟩ ⟨60, 85, 92⟩ })
          , ("veto_rurale",
              { id := "veto_rurale"
                description := "Cabinet vétérinaire rural/mixte"
                metrics := mkMetrics
                  ⟨50/100, 65/100, 72/100⟩ ⟨60000, 85000, 110000⟩
                  ⟨65/100, 52/100, 45/100⟩ ⟨20, 60, 80⟩ ⟨65, 88, 95⟩ }) ] })
  , ("Clinique Vétérinaire",
      { default_variant := "clinique_standard"
        variants :=
          [ ("clinique_standard",
              { id := "clinique_standard"
                description := "Clinique vétérinaire multi-praticiens"
                metrics := mkMetrics
                  ⟨55/100, 70/100, 78/100⟩ ⟨80000, 110000, 140000⟩
                  ⟨65/100, 52/100, 48/100⟩ ⟨40, 85, 95⟩ ⟨65, 88, 94⟩ }) ] })
  , ("Ostéopathe",
      { default_variant := "osteo_standard"
        variants :=
          [ ("osteo_standard",
              { id := "osteo_standard"
                description := "Cabinet d\u0027ostéopathie"
                metrics := mkMetrics
                  ⟨70/100, 85/100, 90/100⟩ ⟨50000, 75000, 100000⟩
                  ⟨30/100, 20/100, 15/100⟩ ⟨40, 75, 90⟩ ⟨55, 75, 85⟩ }) ] })
  , ("Kinésithérapeute",
      { default_variant := "kine_standard"
        variants :=
          [ ("kine_standard",
              { id := "kine_standard"
                description := "Cabinet de kinésithérapie"
                metrics := mkMetrics
                  ⟨65/100, 80/100, 88/100⟩ ⟨60000, 85000, 110000⟩
                  ⟨35/100, 25/100, 18/100⟩ ⟨35, 70, 85⟩ ⟨60, 80, 90⟩ }) ] })
  , ("Thérapeute / Bien-être",
      { default_variant := "therapeute_standard"
        variants :=
          [ ("therapeute_standard",
              { id := "therapeute_standard"
                description := "Praticien bien-être / thérapeute"
                metrics := mkMetrics
                  ⟨70/100, 85/100, 92/100⟩ ⟨40000, 60000, 85000⟩
                  ⟨25/100, 15/100, 10/100⟩ ⟨50, 80, 92⟩ ⟨50, 70, 82⟩ }) ] })
  , ("Santé Libérale (autre)",
      { default_variant := "sante_standard"
        variants :=
          [ ("sante_standard",
              { id := "sante_standard"
                description := "Professionnel de santé libéral"
                metrics := mkMetrics
                  ⟨60/100, 75/100, 85/100⟩ ⟨70000, 100000, 130000⟩
                  ⟨40/100, 30/100, 22/100⟩ ⟨40, 75, 90⟩ ⟨60, 80, 90⟩ }) ] })
  , ("Restauration",
      { default_variant := "resto_traditionnel"
        variants :=
          [ ("resto_traditionnel",
              { id := "resto_traditionnel"
                description := "Restaurant traditionnel urbain"
                metrics := mkMetrics
                  ⟨60/100, 72/100, 78/100⟩ ⟨45000, 65000, 85000⟩
                  ⟨45/100, 35/100, 30/100⟩ ⟨40, 75, 90⟩ ⟨50, 75, 85⟩ })
          , ("resto_rapide",
              { id := "resto_rapide"
                description := "Restauration rapide / Fast-food"
                metrics := mkMetrics
                  ⟨55/100, 68/100, 75/100⟩ ⟨55000, 80000, 100000⟩
                  ⟨40/100, 30/100, 25/100⟩ ⟨60, 85, 98⟩ ⟨35, 60, 75⟩ }) ] })
  , ("Commerce",
      { default_variant := "commerce_detail"
        variants :=
          [ ("commerce_detail",
              { id := "commerce_detail"
                description := "Commerce de détail standard"
                metrics := mkMetrics
                  ⟨35/100, 45/100, 55/100⟩ ⟨80000, 120000, 160000⟩
                  ⟨25/100, 18/100, 14/100⟩ ⟨50, 80, 95⟩ ⟨40, 65, 80⟩ }) ] })
  , ("Services",
      { default_variant := "services_conseil"
        variants :=
          [ ("services_conseil",
              { id := "services_conseil"
                description := "Cabinet de conseil / Services B2B"
                metrics := mkMetrics
                  ⟨65/100, 80/100, 88/100⟩ ⟨100000, 150000, 200000⟩
                  ⟨60/100, 50/100, 40/100⟩ ⟨70, 90, 98⟩ ⟨70, 88, 95⟩ }) ] })
  , ("BTP / Construction",
      { default_variant := "btp_standard"
        variants :=
          [ ("btp_standard",
              { id := "btp_standard"
                description := "Entreprise du bâtiment"
                metrics := mkMetrics
                  ⟨20/100, 30/100, 40/100⟩ ⟨80000, 120000, 160000⟩
                  ⟨45/100, 35/100, 28/100⟩ ⟨20, 50, 75⟩ ⟨50, 70, 85⟩ }) ] })
  , ("Industrie",
      { default_variant := "industrie_standard"
        variants :=
          [ ("industrie_standard",
              { id := "industrie_standard"
                description := "Entreprise industrielle / Production"
                metrics := mkMetrics
                  ⟨25/100, 38/100, 48/100⟩ ⟨90000, 130000, 180000⟩
                  ⟨40/100, 30/100, 22/100⟩ ⟨30, 60, 80⟩ ⟨60, 80, 90⟩ }) ] })
  , ("Autre secteur",
      { default_variant := "autre_standard"
        variants :=
          [ ("autre_standard",
              { id := "autre_standard"
                description := "Secteur non standardisé — benchmarks génériques"
                metrics := mkMetrics
                  ⟨35/100, 50/100, 65/100⟩ ⟨60000, 90000, 120000⟩
                  ⟨50/100, 40/100, 30/100⟩ ⟨40, 70, 85⟩ ⟨50, 72, 85⟩ }) ] }) ]

/-- `getBenchmarks` from src/lib/benchmarks.ts; a thrown `Error` is modelled
as `Except.error` with the same message. -/
def getBenchmarks (secteur : String) (variant : Option String) :
    Except String BenchmarkMetrics :=
  match lookupPairs secteur PARAM_SECTEUR_sectors with
  | none => .error ("Secteur \u0027" ++ secteur ++ "\u0027 non trouvé dans PARAM_SECTEUR")
  | some sect =>
    let varId := match variant with
      | none => sect.default_variant
      | some v => if v == "" then sect.default_variant else v
    match lookupPairs varId sect.variants with
    | none => .error ("Variant \u0027" ++ varId ++ "\u0027 non trouvé pour \u0027" ++ secteur ++ "\u0027")
    | some sv => .ok sv.metrics

-- ============= Scoring engine (src/lib/scoringV2.ts) =============

/-- One `(score, weight)` pair (`ScoreContribution` in src/lib/scoringV2.ts). -/
structure ScoreContribution where
  score : ℚ
  weight : ℚ
  deriving DecidableEq

/-- Sum of the weights of a contribution list (the weighted-average denominator). -/
def weightSum (l : List ScoreContribution) : ℚ :=
  (l.map (fun c => c.weight)).sum

/-- Sum of `score × weight` over a contribution list (the numerator). -/
def weightedSum (l : List ScoreContribution) : ℚ :=
  (l.map (fun c => c.score * c.weight)).sum

/-- `calculateWeightedScore` from src/lib/scoringV2.ts: weighted average with
automatic weight redistribution (empty list gives 0). -/
def calculateWeightedScore (l : List ScoreContribution) : ℚ :=
  match l with
  | [] => 0
  | c :: t => weightedSum (c :: t) / weightSum (c :: t)

/-- Marge-brute step score (scoringV2.ts lines 32-41), on the margin ratio. -/
def margeBruteScore (t : ThresholdSet) (r : ℚ) : ℚ :=
  if r ≥ t.excellent then 100
  else if r ≥ t.bon then 80
  else if r ≥ t.crit then 50
  else max 0 (r * 100 * (9/10))

/-- CA/ETP step score (scoringV2.ts lines 46-55). -/
def caEtpScoreFn (t : ThresholdSet) (v : ℚ) : ℚ :=
  if v ≥ t.excellent then 100
  else if v ≥ t.bon then 80
  else if v ≥ t.crit then 50
  else max 0 ((v / t.crit) * 50)

/-- Charges-RH inverse step score (scoringV2.ts lines 60-69), on the cost ratio. -/
def chargesRhScore (t : ThresholdSet) (r : ℚ) : ℚ :=
  if r ≤ t.excellent then 100
  else if r ≤ t.bon then 80
  else if r ≤ t.crit then 50
  else max 0 (40 - (r - t.crit) * 100)

/-- Net-margin tier score (scoringV2.ts lines 74-79). -/
def netMarginScore (v : ℚ) : ℚ :=
  if v ≥ 15 then 100
  else if v ≥ 10 then 80
  else if v ≥ 5 then 60
  else if v ≥ 0 then 40
  else 20

/-- Cash-runway tier score for the financier dimension (scoringV2.ts lines 85-89). -/
def runwayScore (m : ℚ) : ℚ :=
  if m ≥ 12 then 100
  else if m ≥ 6 then 80
  else if m ≥ 3 then 50
  else 20

/-- Occupancy tier score (scoringV2.ts lines 102-107), on the occupancy rate. -/
def occupancyScore (r : ℚ) : ℚ :=
  if r ≥ 95/100 then 100
  else if r ≥ 85/100 then 80
  else if r ≥ 75/100 then 60
  else if r ≥ 60/100 then 40
  else max 0 (r * 66)

/-- Quality score (scoringV2.ts lines 115-129): return-rate tier, averaged with
the incident tier when `incidentsPerMonth` is present. -/
def qualityScore (q : QualityData) : ℚ :=
  let base :=
    match q.returnRatePercent with
    | none => 100
    | some rr =>
      if rr ≤ 2 then 100
      else if rr ≤ 5 then 80
      else if rr ≤ 10 then 50
      else 20
  match q.incidentsPerMonth with
  | none => base
  | some ic =>
    let incidentScore :=
      if ic ≤ 1 then 100
      else if ic ≤ 3 then 70
      else if ic ≤ 5 then 50
      else 20
    (base + incidentScore) / 2

/-- Digitalisation step score (scoringV2.ts lines 142-151). -/
def digitalScore (t : ThresholdSet) (v : ℚ) : ℚ :=
  if v ≥ t.excellent then 100
  else if v ≥ t.bon then 80
  else if v ≥ t.crit then 50
  else max 0 (v * (3/2))

/-- Fidélisation step score (scoringV2.ts lines 156-166). -/
def fidelisationScore (t : ThresholdSet) (v : ℚ) : ℚ :=
  if v ≥ t.excellent then 100
  else if v ≥ t.bon then 80
  else if v ≥ t.crit then 50
  else max 0 (v * (4/5))

/-- CSAT tier score (scoringV2.ts lines 173-177). -/
def csatScore (v : ℚ) : ℚ :=
  if v ≥ 90 then 100
  else if v ≥ 80 then 80
  else if v ≥ 70 then 60
  else max 0 (v * (4/5))

/-- NPS tier score (scoringV2.ts lines 184-189). -/
def npsScore (v : ℚ) : ℚ :=
  if v ≥ 50 then 100
  else if v ≥ 30 then 80
  else if v ≥ 0 then 60
  else if v ≥ -20 then 40
  else 20

/-- Service-count score (scoringV2.ts lines 201-203): `clamp(40 + n×10, 0, 100)`. -/
def servicesScore (n : ℚ) : ℚ :=
  min 100 (max 0 (40 + n * 10))

/-- Runway-risk tier score for the strategique dimension (scoringV2.ts lines 208-211). -/
def runwayRiskScore (m : ℚ) : ℚ :=
  if m < 3 then 20
  else if m < 6 then 50
  else if m < 12 then 80
  else 100

/-- HR-stability score (scoringV2.ts lines 217-229): turnover tier, averaged
with the absenteeism tier when present. -/
def hrStabilityScore (h : HRData) : ℚ :=
  let base :=
    match h.turnoverRatePercent with
    | none => 100
    | some tv =>
      if tv > 40 then 20
      else if tv > 25 then 50
      else if tv > 15 then 70
      else 100
  match h.absenteeismRatePercent with
  | none => base
  | some ab =>
    let absScore :=
      if ab > 15 then 20
      else if ab > 10 then 50
      else if ab > 5 then 80
      else 100
    (base + absScore) / 2

/-- Dimension-imbalance score (scoringV2.ts lines 234-242). -/
def balanceScore (sf so sc : ℚ) : ℚ :=
  let imbalance := max sf (max so sc) - min sf (min so sc)
  if imbalance > 40 then 50
  else if imbalance > 30 then 70
  else if imbalance > 20 then 85
  else 100

/-- `caEtp`: revenue per FTE with the 0.1 floor (scoringV2.ts line 45). -/
def caEtpValue (v2 : AuditDataV2) : ℚ :=
  v2.finance.annualRevenue / max v2.ops.productivity.fte (1/10)

/-- Financier contribution list (scoringV2.ts lines 28-91): three mandatory
contributions, then the optional net-margin and runway contributions. -/
def financierContributions (v2 : AuditDataV2) (bm : BenchmarkMetrics) :
    List ScoreContribution :=
  [ ⟨margeBruteScore bm.marge_brute.thresholds (v2.finance.grossMarginPercent / 100), 40⟩
  , ⟨caEtpScoreFn bm.ca_etp.thresholds (caEtpValue v2), 30⟩
  , ⟨chargesRhScore bm.charges_rh.thresholds (v2.costs.hrCostsPercent / 100), 20⟩ ]
  ++ (match v2.finance.netMarginPercent with
      | some nm => [⟨netMarginScore nm, 5⟩]
      | none => [])
  ++ (match v2.finance.cashRunwayMonths with
      | some m => [⟨runwayScore m, 5⟩]
      | none => [])

/-- Opérationnel contribution list (scoringV2.ts lines 98-131). -/
def opsContributions (v2 : AuditDataV2) (bm : BenchmarkMetrics) :
    List ScoreContribution :=
  [ ⟨occupancyScore (v2.ops.occupancyRatePercent / 100), 60⟩
  , ⟨caEtpScoreFn bm.ca_etp.thresholds (caEtpValue v2), 25⟩ ]
  ++ (match v2.ops.quality with
      | some q => [⟨qualityScore q, 15⟩]
      | none => [])

/-- Commercial contribution list (scoringV2.ts lines 138-191). -/
def commercialContributions (v2 : AuditDataV2) (bm : BenchmarkMetrics) :
    List ScoreContribution :=
  [ ⟨digitalScore bm.digital_pct.thresholds v2.commercial.digitalizationPercent, 45⟩ ]
  ++ (match v2.commercial.loyaltyPercent with
      | some fid => [⟨fidelisationScore bm.fidelisation.thresholds fid, 35⟩]
      | none => [])
  ++ (match v2.commercial.satisfaction.bind SatisfactionData.csatPercent with
      | some cs => [⟨csatScore cs, 10⟩]
      | none => [])
  ++ (match v2.commercial.satisfaction.bind SatisfactionData.nps with
      | some n => [⟨npsScore n, 10⟩]
      | none => [])

/-- Stratégique contribution list (scoringV2.ts lines 198-242), parameterized by
the three raw (unrounded) dimension scores used for the balance penalty. -/
def strategiqueContributions (v2 : AuditDataV2) (sf so sc : ℚ) :
    List ScoreContribution :=
  [ ⟨servicesScore (v2.nbServices.getD 1), 40⟩ ]
  ++ (match v2.finance.cashRunwayMonths with
      | some m => [⟨runwayRiskScore m, 20⟩]
      | none => [])
  ++ (match v2.hr with
      | some h => [⟨hrStabilityScore h, 20⟩]
      | none => [])
  ++ [ ⟨balanceScore sf so sc, 20⟩ ]

/-- The nine tracked optional fields (scoringV2.ts lines 251-261). -/
def optionalFields (v2 : AuditDataV2) : List (Option ℚ) :=
  [ v2.finance.netMarginPercent
  , v2.finance.cashRunwayMonths
  , v2.costs.cogsPercent
  , v2.costs.fixedCostsPercent
  , v2.hr.bind HRData.absenteeismRatePercent
  , v2.hr.bind HRData.turnoverRatePercent
  , (v2.ops.quality.bind QualityData.returnRatePercent)
  , v2.commercial.satisfaction.bind SatisfactionData.csatPercent
  , v2.commercial.satisfaction.bind SatisfactionData.nps ]

/-- Number of absent tracked optional fields (scoringV2.ts line 262). -/
def missingCount (v2 : AuditDataV2) : ℕ :=
  ((optionalFields v2).filter (fun f => f = none)).length

/-- Missing-data penalty (scoringV2.ts lines 263-267). -/
def missingDataPenalty (v2 : AuditDataV2) : ℚ :=
  if missingCount v2 > 5 then 2
  else if missingCount v2 > 3 then 1
  else 0

/-- Core of `computeScoresV2` (scoringV2.ts lines 21-284) once the benchmark
lookup has succeeded. -/
def computeScoresV2Core (v2 : AuditDataV2) (bm : BenchmarkMetrics) : Scores :=
  let sf := calculateWeightedScore (financierContributions v2 bm)
  let so := calculateWeightedScore (opsContributions v2 bm)
  let sc := calculateWeightedScore (commercialContributions v2 bm)
  let st := calculateWeightedScore (strategiqueContributions v2 sf so sc)
  let scoreGlobal :=
    round1 (sf * (35/100) + so * (25/100) + sc * (20/100) + st * (20/100)
            - missingDataPenalty v2)
  { global := max 0 (min 100 scoreGlobal)
    financier := round1 sf
    operationnel := round1 so
    commercial := round1 sc
    strategique := round1 st }

/-- `computeScoresV2` from src/lib/scoringV2.ts; the benchmark lookup failure
(thrown in TypeScript) surfaces as `Except.error`. -/
def computeScoresV2 (data : AuditData) : Except String Scores :=
  let v2 := normalizeToV2 data
  (getBenchmarks v2.sector v2.variant).map (fun bm => computeScoresV2Core v2 bm)

-- ============= Sector normalizer (src/lib/sectorValidation.ts) =============

/-- `ALLOWED_SECTORS` from src/lib/sectorValidation.ts. -/
def ALLOWED_SECTORS : List String :=
  [ "veterinaire", "clinique_veterinaire", "osteopathe", "kinesitherapeute"
  , "therapeute", "sante_liberale_autre", "commerce", "services", "btp"
  , "industrie", "restauration", "autre" ]

/-- `SECTOR_LABELS` from src/lib/sectorValidation.ts. -/
def SECTOR_LABELS : List (String × String) :=
  [ ("veterinaire", "Vétérinaire")
  , ("clinique_veterinaire", "Clinique Vétérinaire")
  , ("osteopathe", "Ostéopathe")
  , ("kinesitherapeute", "Kinésithérapeute")
  , ("therapeute", "Thérapeute / Bien-être")
  , ("sante_liberale_autre", "Santé Libérale (autre)")
  , ("commerce", "Commerce")
  , ("services", "Services")
  , ("btp", "BTP / Construction")
  , ("industrie", "Industrie")
  , ("restauration", "Restauration")
  , ("autre", "Autre secteur") ]

/-- `SECTOR_SYNONYMS` from src/lib/sectorValidation.ts, in declaration order
(object iteration order is significant for the substring pass). -/
def SECTOR_SYNONYMS : List (String × String) :=
  [ ("veterinaire", "veterinaire")
  , ("veto", "veterinaire")
  , ("veterinary", "veterinaire")
  , ("animal", "veterinaire")
  , ("clinique veterinaire", "clinique_veterinaire")
  , ("clinique veto", "clinique_veterinaire")
  , ("hopital veterinaire", "clinique_veterinaire")
  , ("osteopathe", "osteopathe")
  , ("osteo", "osteopathe")
  , ("osteopathie", "osteopathe")
  , ("osteopath", "osteopathe")
  , ("kinesitherapeute", "kinesitherapeute")
  , ("kine", "kinesitherapeute")
  , ("kinetherapeute", "kinesitherapeute")
  , ("masseur kinesitherapeute", "kinesitherapeute")
  , ("masseur kine", "kinesitherapeute")
  , ("physiotherapeute", "kinesitherapeute")
  , ("physio", "kinesitherapeute")
  , ("therapeute", "therapeute")
  , ("therapie", "therapeute")
  , ("praticien bien etre", "therapeute")
  , ("praticien bien-etre", "therapeute")
  , ("bien etre", "therapeute")
  , ("bien-etre", "therapeute")
  , ("psychologue", "therapeute")
  , ("psychotherapeute", "therapeute")
  , ("sophrologie", "therapeute")
  , ("sophrologue", "therapeute")
  , ("naturopathe", "therapeute")
  , ("naturopathie", "therapeute")
  , ("hypnotherapeute", "therapeute")
  , ("hypnose", "therapeute")
  , ("acupuncteur", "therapeute")
  , ("acupuncture", "therapeute")
  , ("sante liberale autre", "sante_liberale_autre")
  , ("sante liberale", "sante_liberale_autre")
  , ("professionnel de sante", "sante_liberale_autre")
  , ("medecin", "sante_liberale_autre")
  , ("dentiste", "sante_liberale_autre")
  , ("infirmier", "sante_liberale_autre")
  , ("infirmiere", "sante_liberale_autre")
  , ("pharmacien", "sante_liberale_autre")
  , ("sage femme", "sante_liberale_autre")
  , ("orthophoniste", "sante_liberale_autre")
  , ("podologue", "sante_liberale_autre")
  , ("dieteticien", "sante_liberale_autre")
  , ("commerce", "commerce")
  , ("commerce de detail", "commerce")
  , ("retail", "commerce")
  , ("boutique", "commerce")
  , ("magasin", "commerce")
  , ("epicerie", "commerce")
  , ("supermarche", "commerce")
  , ("services", "services")
  , ("service", "services")
  , ("conseil", "services")
  , ("consulting", "services")
  , ("cabinet conseil", "services")
  , ("agence", "services")
  , ("prestataire", "services")
  , ("b2b", "services")
  , ("btp", "btp")
  , ("construction", "btp")
  , ("batiment", "btp")
  , ("travaux publics", "btp")
  , ("artisan", "btp")
  , ("plombier", "btp")
  , ("electricien", "btp")
  , ("maconnerie", "btp")
  , ("menuiserie", "btp")
  , ("peintre", "btp")
  , ("couvreur", "btp")
  , ("industrie", "industrie")
  , ("industriel", "industrie")
  , ("manufacture", "industrie")
  , ("usine", "industrie")
  , ("production", "industrie")
  , ("fabrication", "industrie")
  , ("restauration", "restauration")
  , ("restaurant", "restauration")
  , ("resto", "restauration")
  , ("cafe", "restauration")
  , ("bar", "restauration")
  , ("brasserie", "restauration")
  , ("traiteur", "restauration")
  , ("fast food", "restauration")
  , ("snack", "restauration")
  , ("pizzeria", "restauration")
  , ("boulangerie", "restauration")
  , ("patisserie", "restauration") ]

/-- Per-character model of `toLowerCase()` followed by NFD normalization with
combining-mark removal: ASCII letters are lowercased and the accented Latin
letters that can occur in French sector labels fold to their base letter. -/
def foldChar (c : Char) : Char :=
  if 'A' ≤ c ∧ c ≤ 'Z' then c.toLower
  else if c = 'à' ∨ c = 'â' ∨ c = 'ä' ∨ c = 'á' ∨ c = 'ã' ∨ c = 'À' ∨ c = 'Â' ∨ c = 'Ä' ∨ c = 'Á' then 'a'
  else if c = 'é' ∨ c = 'è' ∨ c = 'ê' ∨ c = 'ë' ∨ c = 'É' ∨ c = 'È' ∨ c = 'Ê' ∨ c = 'Ë' then 'e'
  else if c = 'î' ∨ c = 'ï' ∨ c = 'í' ∨ c = 'ì' ∨ c = 'Î' ∨ c = 'Ï' then 'i'
  else if c = 'ô' ∨ c = 'ö' ∨ c = 'ó' ∨ c = 'ò' ∨ c = 'õ' ∨ c = 'Ô' ∨ c = 'Ö' then 'o'
  else if c = 'ù' ∨ c = 'û' ∨ c = 'ü' ∨ c = 'ú' ∨ c = 'Ù' ∨ c = 'Û' ∨ c = 'Ü' then 'u'
  else if c = 'ç' ∨ c = 'Ç' then 'c'
  else if c = 'ñ' ∨ c = 'Ñ' then 'n'
  else if c = 'ÿ' then 'y'
  else c

/-- The character class kept by `replace(/[^a-z0-9\s-]/g, comment)`:
lowercase letters, digits, whitespace (modelled as the space character) and hyphen. -/
def isKeptChar (c : Char) : Bool :=
  decide (('a' ≤ c ∧ c ≤ 'z') ∨ ('0' ≤ c ∧ c ≤ '9') ∨ c = ' ' ∨ c = '-')

/-- Collapse runs of spaces to a single space (`replace(/\s+/g, c)` with one space). -/
def squeezeSpaces : List Char → List Char
  | [] => []
  | [c] => [c]
  | a :: b :: t =>
    if a = ' ' ∧ b = ' ' then squeezeSpaces (b :: t) else a :: squeezeSpaces (b :: t)

/-- Strip leading and trailing spaces. -/
def trimSpaces (l : List Char) : List Char :=
  ((l.dropWhile (fun c => c = ' ')).reverse.dropWhile (fun c => c = ' ')).reverse

/-- `normalizeForSectorMatch` from src/lib/sectorValidation.ts: lowercase, trim,
strip accents, keep `[a-z0-9\s-]`, collapse whitespace, trim. -/
def normalizeForSectorMatch (s : String) : String :=
  ⟨trimSpaces (squeezeSpaces ((s.toList.map foldChar).filter isKeptChar))⟩

/-- JavaScript `hay.includes(needle)` on strings (substring test). -/
def containsSub : List Char → List Char → Bool
  | [], n => n.isPrefixOf []
  | c :: t, n => if n.isPrefixOf (c :: t) then true else containsSub t n

/-- String-level `includes`. -/
def strIncludes (hay needle : String) : Bool := containsSub hay.toList needle.toList

/-- `SectorValidationResult` from src/lib/sectorValidation.ts; the canonical
sector is carried as a string (the TypeScript code narrows by a runtime
membership check on `ALLOWED_SECTORS`). -/
structure SectorValidationResult where
  isValid : Bool
  canonicalSector : String
  label : String
  isFallback : Bool
  warning : Option String
  deriving DecidableEq

/-- Label lookup `SECTOR_LABELS[sector]`. -/
def sectorLabel (s : String) : String := (lookupPairs s SECTOR_LABELS).getD ""

/-- JavaScript `String.trim()` modelled over the character list
(whitespace modelled as the space character, as in `normalizeForSectorMatch`). -/
def jsTrim (s : String) : String := ⟨trimSpaces s.toList⟩

/-- `validateAndMapSector` from src/lib/sectorValidation.ts. -/
def validateAndMapSector (rawValue : Option String) : SectorValidationResult :=
  match rawValue with
  | none =>
    { isValid := false, canonicalSector := "autre", label := sectorLabel "autre"
      isFallback := true, warning := some "Secteur non renseigné" }
  | some raw =>
    if jsTrim raw == "" then
      { isValid := false, canonicalSector := "autre", label := sectorLabel "autre"
        isFallback := true, warning := some "Secteur non renseigné" }
    else if ALLOWED_SECTORS.contains (normalizeForSectorMatch raw) then
      { isValid := true, canonicalSector := normalizeForSectorMatch raw
        label := sectorLabel (normalizeForSectorMatch raw)
        isFallback := false, warning := none }
    else
      match lookupPairs (normalizeForSectorMatch raw) SECTOR_SYNONYMS with
      | some mapped =>
        { isValid := true, canonicalSector := mapped, label := sectorLabel mapped
          isFallback := false, warning := none }
      | none =>
        match SECTOR_SYNONYMS.find?
            (fun p => strIncludes (normalizeForSectorMatch raw) p.1
              || strIncludes p.1 (normalizeForSectorMatch raw)) with
        | some pr =>
          { isValid := true, canonicalSector := pr.2, label := sectorLabel pr.2
            isFallback := false, warning := none }
        | none =>
          { isValid := true, canonicalSector := "autre", label := sectorLabel "autre"
            isFallback := true
            warning := some ("Secteur non reconnu (\"" ++ raw
              ++ "\"), analyse réalisée sans benchmark sectoriel précis") }

-- ============= Warnings engine (src/lib/warnings.ts) =============

/-- Warning severity (`type` field of `AuditWarning`). -/
inductive WarnType where
  | warning
  | critical
  deriving DecidableEq

/-- `AuditWarning` from src/types/audit.ts. -/
structure AuditWarning where
  type : WarnType
  message : String
  field : Option String
  deriving DecidableEq

/-- `getAuditWarnings` from src/lib/warnings.ts: the fixed ordered battery of
ten coherence checks over the normalized record. -/
def getAuditWarnings (data : AuditData) : List AuditWarning :=
  let v2 := normalizeToV2 data
  (match v2.costs.cogsPercent with
   | some cogs =>
     let total := v2.finance.grossMarginPercent + cogs
     if |total - 100| > 8 then
       [⟨.warning, "Incohérence : Marge brute (" ++ numStr v2.finance.grossMarginPercent
          ++ "%) + COGS (" ++ numStr cogs ++ "%) = " ++ numStr total
          ++ "% (devrait être proche de 100%)", some "cogsPercent"⟩]
     else []
   | none => [])
  ++ (match v2.finance.netMarginPercent with
      | some nm =>
        if nm > v2.finance.grossMarginPercent then
          [⟨.warning, "Incohérence : La marge nette (" ++ numStr nm
             ++ "%) ne peut pas dépasser la marge brute ("
             ++ numStr v2.finance.grossMarginPercent ++ "%)", some "netMarginPercent"⟩]
        else []
      | none => [])
  ++ (let totalCosts := v2.costs.hrCostsPercent + (v2.costs.cogsPercent.getD 0)
        + (v2.costs.fixedCostsPercent.getD 0)
      if totalCosts > 115 then
        [⟨.warning, "Structure de coûts élevée : RH (" ++ numStr v2.costs.hrCostsPercent
           ++ "%) + COGS (" ++ numStr (v2.costs.cogsPercent.getD 0) ++ "%) + Fixes ("
           ++ numStr (v2.costs.fixedCostsPercent.getD 0) ++ "%) = " ++ numStr totalCosts
           ++ "% du CA", some "costs"⟩]
      else [])
  ++ (if v2.ops.occupancyRatePercent > 95 then
        [⟨.warning, "Taux d\u0027occupation très élevé (" ++ numStr v2.ops.occupancyRatePercent
           ++ "%) : risque de surcharge et qualité de service impactée",
          some "occupancyRatePercent"⟩]
      else [])
  ++ (match v2.hr.bind HRData.absenteeismRatePercent with
      | some ab =>
        if ab > 15 then
          [⟨.critical, "Taux d\u0027absentéisme critique (" ++ numStr ab
             ++ "%) : risque RH majeur à traiter en priorité", some "absenteeismRatePercent"⟩]
        else []
      | none => [])
  ++ (match v2.hr.bind HRData.turnoverRatePercent with
      | some tv =>
        if tv > 40 then
          [⟨.critical, "Turnover critique (" ++ numStr tv
             ++ "%) : instabilité des équipes, coûts de recrutement élevés",
            some "turnoverRatePercent"⟩]
        else []
      | none => [])
  ++ (match v2.ops.quality.bind QualityData.returnRatePercent with
      | some rr =>
        if rr > 10 then
          [⟨.warning, "Taux de retours/erreurs élevé (" ++ numStr rr
             ++ "%) : impact sur la satisfaction client", some "returnRatePercent"⟩]
        else []
      | none => [])
  ++ (match v2.finance.cashRunwayMonths with
      | some m =>
        if m < 3 then
          [⟨.critical, "Trésorerie critique : runway de " ++ numStr m
             ++ " mois seulement", some "cashRunwayMonths"⟩]
        else []
      | none => [])
  ++ (match v2.commercial.satisfaction.bind SatisfactionData.nps with
      | some n =>
        if n < 0 then
          [⟨.warning, "NPS négatif (" ++ numStr n
             ++ ") : plus de détracteurs que de promoteurs", some "nps"⟩]
        else []
      | none => [])
  ++ (match v2.commercial.satisfaction.bind SatisfactionData.csatPercent with
      | some cs =>
        if cs < 70 then
          [⟨.warning, "Satisfaction client faible (CSAT: " ++ numStr cs
             ++ "%) : risque de churn élevé", some "csatPercent"⟩]
        else []
      | none => [])

-- ============= Decision engine (src/lib/decisionEngine.ts) =============

/-- `PriorityLevel` from src/lib/decisionEngine.ts (accents dropped from the
Lean constructor names; `ELEVE` stands for the ÉLEVÉ level, `MODERE` for MODÉRÉ). -/
inductive PriorityLevel where
  | CRITIQUE
  | ELEVE
  | MODERE
  | FAIBLE
  deriving DecidableEq

/-- Rule severity from src/lib/decisionEngine.ts. -/
inductive Severity where
  | critical
  | high
  | medium
  | low
  deriving DecidableEq

/-- `severityOrder` map (decisionEngine.ts line 294). -/
def severityRank : Severity → ℕ
  | .critical => 0
  | .high => 1
  | .medium => 2
  | .low => 3

/-- `RiskRule` from src/lib/decisionEngine.ts; the category is carried as a string. -/
structure RiskRule where
  id : String
  condition : AuditDataV2 → Scores → Bool
  risk : String
  lever : String
  category : String
  severity : Severity
  quickWin : Option String
  structuralAction : Option String

/-- The first rule of `RISK_RULES` (named so theorems can point at it). -/
def runwayCriticalRule : RiskRule :=
  { id := "runway_critical"
    condition := fun d _ => match d.finance.cashRunwayMonths with
      | some m => decide (m < 3)
      | none => false
    risk := "Risque de continuité : trésorerie critique (moins de 3 mois)"
    lever := "Sécuriser la trésorerie avant toute autre action"
    category := "financial", severity := .critical
    quickWin := none
    structuralAction := some "Renégocier les délais de paiement et optimiser le BFR" }

/-- `RISK_RULES` from src/lib/decisionEngine.ts, in declaration order. -/
def RISK_RULES : List RiskRule :=
  [ runwayCriticalRule
  , { id := "runway_warning"
      condition := fun d _ => match d.finance.cashRunwayMonths with
        | some m => decide (m ≥ 3 ∧ m < 6)
        | none => false
      risk := "Trésorerie tendue : vigilance sur le cash"
      lever := "Mettre en place un suivi hebdomadaire de trésorerie"
      category := "financial", severity := .high
      quickWin := some "Relancer les créances clients en retard"
      structuralAction := none }
  , { id := "low_gross_margin"
      condition := fun _ s => decide (s.financier < 45)
      risk := "Marge brute insuffisante pour absorber les aléas"
      lever := "Réviser la politique tarifaire et les coûts d\u0027achat"
      category := "financial", severity := .high
      quickWin := none
      structuralAction := some "Analyser la structure de coûts par activité/produit" }
  , { id := "negative_net_margin"
      condition := fun d _ => match d.finance.netMarginPercent with
        | some nm => decide (nm < 0)
        | none => false
      risk := "Résultat net négatif : modèle économique déficitaire"
      lever := "Identifier les centres de coûts à optimiser en priorité"
      category := "financial", severity := .critical
      quickWin := none
      structuralAction := some "Plan de redressement avec objectifs chiffrés" }
  , { id := "hr_cost_high"
      condition := fun d _ =>
        decide (d.costs.hrCostsPercent > 50) &&
        decide (((d.hr.bind HRData.absenteeismRatePercent).getD 0) > 8)
      risk := "Risque humain majeur : coûts RH élevés combinés à un absentéisme important"
      lever := "Rééquilibrer la structure RH avant toute action commerciale"
      category := "hr", severity := .critical
      quickWin := none
      structuralAction := some "Audit social et plan QVT ciblé" }
  , { id := "high_absenteeism"
      condition := fun d _ =>
        let ab := (d.hr.bind HRData.absenteeismRatePercent).getD 0
        decide (ab > 8 ∧ ab ≤ 15)
      risk := "Absentéisme élevé : signal de dysfonctionnement organisationnel"
      lever := "Analyser les causes d\u0027absentéisme par service/poste"
      category := "hr", severity := .high
      quickWin := some "Entretiens individuels pour identifier les irritants"
      structuralAction := none }
  , { id := "critical_absenteeism"
      condition := fun d _ => decide (((d.hr.bind HRData.absenteeismRatePercent).getD 0) > 15)
      risk := "Absentéisme critique : désengagement généralisé"
      lever := "Lancer un diagnostic social approfondi"
      category := "hr", severity := .critical
      quickWin := none
      structuralAction := some "Plan de transformation RH avec accompagnement externe" }
  , { id := "high_turnover"
      condition := fun d _ =>
        let tv := (d.hr.bind HRData.turnoverRatePercent).getD 0
        decide (tv > 25 ∧ tv ≤ 40)
      risk := "Turnover élevé : perte de compétences et coûts de recrutement"
      lever := "Renforcer la politique de fidélisation des talents"
      category := "hr", severity := .high
      quickWin := some "Entretiens de sortie systématiques pour comprendre les départs"
      structuralAction := none }
  , { id := "critical_turnover"
      condition := fun d _ => decide (((d.hr.bind HRData.turnoverRatePercent).getD 0) > 40)
      risk := "Turnover critique : instabilité des équipes"
      lever := "Réviser la politique salariale et les conditions de travail"
      category := "hr", severity := .critical
      quickWin := none
      structuralAction := some "Benchmark salarial et plan de rétention" }
  , { id := "low_occupancy"
      condition := fun d _ => decide (d.ops.occupancyRatePercent < 65)
      risk := "Inefficacité structurelle : sous-utilisation des capacités"
      lever := "Améliorer le taux d\u0027occupation avant d\u0027investir en marketing"
      category := "operational", severity := .high
      quickWin := some "Optimiser le planning et réduire les créneaux vides"
      structuralAction := some "Revoir le dimensionnement de l\u0027équipe" }
  , { id := "very_high_occupancy"
      condition := fun d _ => decide (d.ops.occupancyRatePercent > 95)
      risk := "Saturation opérationnelle : risque qualité et épuisement"
      lever := "Anticiper les capacités avant que la qualité ne se dégrade"
      category := "operational", severity := .medium
      quickWin := some "Identifier les pics d\u0027activité et lisser la charge"
      structuralAction := none }
  , { id := "low_productivity"
      condition := fun _ s => decide (s.operationnel < 50)
      risk := "Productivité insuffisante : CA/ETP sous les benchmarks sectoriels"
      lever := "Optimiser les processus et réduire les temps improductifs"
      category := "operational", severity := .high
      quickWin := none
      structuralAction := some "Cartographie des processus et identification des goulots" }
  , { id := "quality_issues"
      condition := fun d _ => decide (((d.ops.quality.bind QualityData.returnRatePercent).getD 0) > 5)
      risk := "Problèmes qualité récurrents : impact sur la satisfaction client"
      lever := "Mettre en place des contrôles qualité systématiques"
      category := "operational", severity := .medium
      quickWin := some "Analyser les causes des 5 derniers incidents majeurs"
      structuralAction := none }
  , { id := "low_digitalization"
      condition := fun d _ => decide (d.commercial.digitalizationPercent < 40)
      risk := "Risque commercial moyen terme : retard digital significatif"
      lever := "Prioriser la digitalisation des interactions client"
      category := "commercial", severity := .high
      quickWin := some "Mettre en place un outil de prise de RDV en ligne"
      structuralAction := some "Plan de transformation digitale sur 12 mois" }
  , { id := "moderate_digitalization"
      condition := fun d _ =>
        decide (d.commercial.digitalizationPercent ≥ 40 ∧ d.commercial.digitalizationPercent < 60)
      risk := "Digitalisation partielle : opportunités non exploitées"
      lever := "Compléter les outils digitaux existants"
      category := "commercial", severity := .medium
      quickWin := some "Automatiser les rappels clients (email/SMS)"
      structuralAction := none }
  , { id := "low_loyalty"
      condition := fun d _ => decide ((d.commercial.loyaltyPercent.getD 100) < 60)
      risk := "Fidélisation faible : coût d\u0027acquisition élevé"
      lever := "Mettre en place un programme de fidélisation structuré"
      category := "commercial", severity := .high
      quickWin := some "Offre de bienvenue pour les nouveaux clients récurrents"
      structuralAction := none }
  , { id := "low_satisfaction"
      condition := fun d _ =>
        decide (((d.commercial.satisfaction.bind SatisfactionData.csatPercent).getD 100) < 75)
      risk := "Satisfaction client insuffisante : risque de churn"
      lever := "Identifier et traiter les irritants clients prioritaires"
      category := "commercial", severity := .high
      quickWin := some "Enquête satisfaction flash auprès des 20 derniers clients"
      structuralAction := none }
  , { id := "negative_nps"
      condition := fun d _ =>
        decide (((d.commercial.satisfaction.bind SatisfactionData.nps).getD 50) < 0)
      risk := "NPS négatif : plus de détracteurs que de promoteurs"
      lever := "Plan d\u0027action ciblé sur les détracteurs"
      category := "commercial", severity := .high
      quickWin := none
      structuralAction := some "Refonte de l\u0027expérience client end-to-end" }
  , { id := "dimension_imbalance"
      condition := fun _ s =>
        let dims := max s.financier (max s.operationnel (max s.commercial s.strategique))
          - min s.financier (min s.operationnel (min s.commercial s.strategique))
        decide (dims > 30)
      risk := "Déséquilibre fort entre les dimensions : fragilité du modèle"
      lever := "Rééquilibrer les investissements entre les 4 axes"
      category := "strategic", severity := .medium
      quickWin := none
      structuralAction := some "Plan d\u0027action différencié par dimension" }
  , { id := "low_diversification"
      condition := fun d _ => decide ((d.nbServices.getD 1) ≤ 2)
      risk := "Dépendance à une offre limitée : vulnérabilité commerciale"
      lever := "Identifier des opportunités de diversification de l\u0027offre"
      category := "strategic", severity := .medium
      quickWin := none
      structuralAction := some "Étude de marché pour nouvelles lignes de services" } ]

/-- Stable insertion preserving `severityRank` order (JavaScript `Array.sort`
with comparator `severityOrder[a] - severityOrder[b]` is stable). -/
def insertBySeverity (r : RiskRule) : List RiskRule → List RiskRule
  | [] => [r]
  | b :: t =>
    if severityRank r.severity ≤ severityRank b.severity then r :: b :: t
    else b :: insertBySeverity r t

/-- Stable severity sort (decisionEngine.ts line 295). -/
def sortBySeverity : List RiskRule → List RiskRule
  | [] => []
  | r :: t => insertBySeverity r (sortBySeverity t)

/-- `determinePriorityLevel` from src/lib/decisionEngine.ts lines 234-257. -/
def determinePriorityLevel (scores : Scores) (triggeredRules : List RiskRule) :
    PriorityLevel :=
  if scores.global < 40 then .CRITIQUE
  else if triggeredRules.any (fun r => r.severity = .critical) then .CRITIQUE
  else if scores.global < 50
      ∨ (triggeredRules.filter (fun r => r.severity = .high)).length ≥ 2 then .ELEVE
  else if scores.global < 60
      ∨ triggeredRules.any (fun r => r.severity = .high) then .MODERE
  else .FAIBLE

/-- `generateDecisionSummary` from src/lib/decisionEngine.ts lines 261-279. -/
def generateDecisionSummary (priorityLevel : PriorityLevel) (topRisks : List String)
    (scores : Scores) : String :=
  let riskCount := topRisks.length
  let plural := if riskCount > 1 then "s" else ""
  match priorityLevel with
  | .CRITIQUE =>
    "Situation critique nécessitant une action immédiate. " ++ toString riskCount
      ++ " risque" ++ plural ++ " majeur" ++ plural ++ " identifié" ++ plural
      ++ ". Priorité : stabiliser avant d\u0027optimiser."
  | .ELEVE =>
    "Plusieurs zones de fragilité identifiées (score global : " ++ numStr scores.global
      ++ "/100). Actions correctives recommandées sous 30 jours."
  | .MODERE =>
    "Performance globale satisfaisante avec des axes d\u0027amélioration ciblés."
      ++ " Plan d\u0027action à 3 mois recommandé."
  | .FAIBLE =>
    "Situation maîtrisée. Maintenir la vigilance et poursuivre"
      ++ " l\u0027optimisation continue des performances."

/-- `DecisionOutput` as declared locally in src/lib/decisionEngine.ts
(without quantified recommendations). -/
structure DecisionOutput where
  priorityLevel : PriorityLevel
  topRisks : List String
  topLevers : List String
  quickWins : List String
  structuralActions : List String
  decisionSummary : String
  deriving DecidableEq

/-- `computeDecisionOutput` from src/lib/decisionEngine.ts lines 283-326.
The JavaScript in-place `sort` means the severity-sorted list is the one used
for every downstream extraction, including `determinePriorityLevel`. -/
def computeDecisionOutput (auditData : AuditData) (scores : Scores)
    (_warnings : List AuditWarning) : DecisionOutput :=
  let v2 := normalizeToV2 auditData
  let triggeredRules := sortBySeverity (RISK_RULES.filter (fun r => r.condition v2 scores))
  let topRisks := (triggeredRules.take 3).map (fun r => r.risk)
  let topLevers := (triggeredRules.take 3).map (fun r => r.lever)
  let quickWins := ((triggeredRules.filter (fun r => r.quickWin.isSome)).take 3).filterMap
    (fun r => r.quickWin)
  let structuralActions :=
    ((triggeredRules.filter (fun r => r.structuralAction.isSome)).take 3).filterMap
      (fun r => r.structuralAction)
  let priorityLevel := determinePriorityLevel scores triggeredRules
  let decisionSummary := generateDecisionSummary priorityLevel topRisks scores
  { priorityLevel, topRisks, topLevers, quickWins, structuralActions, decisionSummary }

-- ============= Simulation engine (src/lib/simulationEngine.ts) =============

/-- `ConfidenceLevel` from src/types/simulation.ts. -/
inductive ConfidenceLevel where
  | FAIBLE
  | MOYEN
  | BON
  deriving DecidableEq

/-- `SimulationType` from src/types/simulation.ts. -/
inductive SimulationType where
  | TRESORERIE
  | RENTABILITE
  | ACTIVITE
  | COMMERCIAL
  | RH
  deriving DecidableEq

/-- `SimulationInput` from src/types/simulation.ts. -/
structure SimulationInput where
  id : String
  label : String
  value : ℚ
  unit : String
  description : String
  deriving DecidableEq

/-- `SimulationResult` from src/types/simulation.ts; `impactMin`/`impactMax`
are integers because the engine applies `Math.round` before returning. -/
structure SimulationResult where
  id : String
  type : SimulationType
  title : String
  description : String
  inputs : List SimulationInput
  impactMin : ℤ
  impactMax : ℤ
  impactUnit : String
  impactLabel : String
  secondaryEffects : List String
  hypotheses : List String
  confidenceLevel : ConfidenceLevel
  priority : ℕ
  deriving DecidableEq

/-- The `inputs: Record<string, number>` argument: a partial map from input
ids to numbers; `inputs.k || 0` reads as `(inputs k).getD 0`. -/
def SimInputs : Type := String → Option ℚ

/-- Stand-in for JavaScript `Number.toFixed(1)` used only inside labels. -/
def toFixed1 (q : ℚ) : String :=
  let n := jsRound (q * 10)
  toString (n / 10) ++ "." ++ toString (n % 10).natAbs

/-- `formatCurrency` from src/lib/simulationEngine.ts lines 19-23. -/
def formatCurrency (v : ℚ) : String :=
  if v ≥ 1000000 then toFixed1 (v / 1000000) ++ "M €"
  else if v ≥ 1000 then toString (jsRound (v / 1000)) ++ "k €"
  else toString (jsRound v) ++ " €"

/-- `calculateConfidence` from src/lib/simulationEngine.ts lines 27-39. -/
def calculateConfidence (dataCompleteness : ℚ) (simulationType : SimulationType) :
    ConfidenceLevel :=
  match simulationType with
  | .RH => if dataCompleteness ≥ 8/10 then .MOYEN else .FAIBLE
  | _ =>
    if dataCompleteness ≥ 9/10 then .BON
    else if dataCompleteness ≥ 7/10 then .MOYEN
    else .FAIBLE

/-- Dynamic path access `data[p1][p2]...` used by `checkDataCompleteness`.
Every required-field path hard-coded in src/lib/simulationEngine.ts names a
legacy flat-schema property (`finance.caAnnuel`, `ops.tauxOccupation`,
`productivity.effectifETP`, ...) that does not exist on `AuditDataV2`, so on
the V2 records the engine receives the resolution is always `none`. -/
def resolvePath (_data : AuditDataV2) (_path : String) : Option ℚ := none

/-- `checkDataCompleteness` from src/lib/simulationEngine.ts lines 43-65. -/
def checkDataCompleteness (data : AuditDataV2) (requiredFields : List String) : ℚ :=
  ((requiredFields.filter (fun f => (resolvePath data f).isSome)).length : ℚ)
    / (requiredFields.length : ℚ)

/-- `simulateTresorerie` from src/lib/simulationEngine.ts lines 69-178, with the
`Date.now()` read of the result id as the explicit argument `now`. -/
def simulateTresorerie (data : AuditDataV2) (inputs : SimInputs) (now : ℤ) :
    Option SimulationResult :=
  let caAnnuel := data.finance.annualRevenue
  let chargesRhPct := data.costs.hrCostsPercent
  let chargesFixes := caAnnuel * (chargesRhPct / 100) / 12
  if caAnnuel = 0 then none
  else
    let delaiClient := (inputs "delai_client").getD 0
    let delaiFournisseur := (inputs "delai_fournisseur").getD 0
    let reductionCharges := (inputs "reduction_charges").getD 0
    if delaiClient = 0 ∧ delaiFournisseur = 0 ∧ reductionCharges = 0 then none
    else
      let caMensuel := caAnnuel / 12
      let caJournalier := caAnnuel / 365
      let gainDelaiClient := |delaiClient| * caJournalier
      let gainDelaiClientMin := gainDelaiClient * (6/10)
      let gainDelaiClientMax := gainDelaiClient * (8/10)
      let gainDelaiFournisseur := delaiFournisseur * (caMensuel * (3/10)) / 30
      let gainDelaiFournisseurMin := gainDelaiFournisseur * (5/10)
      let gainDelaiFournisseurMax := gainDelaiFournisseur * (7/10)
      let gainChargesFixes := chargesFixes * |reductionCharges| / 100 * 12
      let gainChargesFixesMin := gainChargesFixes * (7/10)
      let gainChargesFixesMax := gainChargesFixes * (9/10)
      let totalMin := gainDelaiClientMin + gainDelaiFournisseurMin + gainChargesFixesMin
      let totalMax := gainDelaiClientMax + gainDelaiFournisseurMax + gainChargesFixesMax
      let burnMensuel := if chargesFixes > 0 then chargesFixes else caMensuel * (4/10)
      let runwayGainMin := jsRound (totalMin / burnMensuel * 30)
      let runwayGainMax := jsRound (totalMax / burnMensuel * 30)
      let inputsList :=
        (if delaiClient ≠ 0 then
          [⟨"delai_client", "Réduction délai client", delaiClient, "jours",
            "Passage de délai client à J" ++ numStr |delaiClient| ++ " plus tôt"⟩]
         else [])
        ++ (if delaiFournisseur ≠ 0 then
          [⟨"delai_fournisseur", "Allongement délai fournisseur", delaiFournisseur, "jours",
            "Négociation de +" ++ numStr delaiFournisseur ++ " jours"⟩]
         else [])
        ++ (if reductionCharges ≠ 0 then
          [⟨"reduction_charges", "Réduction charges fixes", reductionCharges, "%",
            "Réduction de " ++ numStr |reductionCharges| ++ "%"⟩]
         else [])
      let hypotheses :=
        (if delaiClient ≠ 0 then
          ["Réduction effective du DSO de " ++ numStr |delaiClient| ++ " jours"] else [])
        ++ (if delaiFournisseur ≠ 0 then
          ["Négociation réussie avec les fournisseurs clés"] else [])
        ++ (if reductionCharges ≠ 0 then
          ["Réduction effective des charges fixes de " ++ numStr |reductionCharges| ++ "%"]
         else [])
        ++ ["Maintien du niveau d\u0027activité actuel",
            "Pas de détérioration de la relation client/fournisseur"]
      let effects :=
        (if delaiClient ≠ 0 then ["Amélioration du BFR"] else [])
        ++ (if reductionCharges ≠ 0 then ["Réduction du point mort"] else [])
      let completeness := checkDataCompleteness data
        ["finance.caAnnuel", "finance.chargesFixesMensuelles", "finance.tresorerieNette"]
      some
        { id := "tresorerie_" ++ toString now
          type := .TRESORERIE
          title := "Simulation trésorerie"
          description := "Impact estimé sur la trésorerie annuelle"
          inputs := inputsList
          impactMin := jsRound totalMin
          impactMax := jsRound totalMax
          impactUnit := "€"
          impactLabel := formatCurrency totalMin ++ " à " ++ formatCurrency totalMax
            ++ " / an (soit +" ++ toString runwayGainMin ++ " à +" ++ toString runwayGainMax
            ++ " jours de runway)"
          secondaryEffects := effects
          hypotheses := hypotheses
          confidenceLevel := calculateConfidence completeness .TRESORERIE
          priority := 1 }

/-- `simulateRentabilite` from src/lib/simulationEngine.ts lines 180-278. -/
def simulateRentabilite (data : AuditDataV2) (inputs : SimInputs) (now : ℤ) :
    Option SimulationResult :=
  let caAnnuel := data.finance.annualRevenue
  let margeBrute := data.finance.grossMarginPercent
  let chargesRh := data.costs.hrCostsPercent
  if caAnnuel = 0 then none
  else
    let hausseMarge := (inputs "marge_brute").getD 0
    let reductionCogs := (inputs "reduction_cogs").getD 0
    let reductionRh := (inputs "reduction_rh").getD 0
    if hausseMarge = 0 ∧ reductionCogs = 0 ∧ reductionRh = 0 then none
    else
      let gainMargeMin := (hausseMarge / 100) * caAnnuel * (7/10)
      let gainMargeMax := (hausseMarge / 100) * caAnnuel * (9/10)
      let cogs := caAnnuel * (1 - margeBrute / 100)
      let gainCogsMin := cogs * |reductionCogs| / 100 * (6/10)
      let gainCogsMax := cogs * |reductionCogs| / 100 * (85/100)
      let chargesRhAnnuel := caAnnuel * (chargesRh / 100)
      let gainRhMin := chargesRhAnnuel * |reductionRh| / 100 * (5/10)
      let gainRhMax := chargesRhAnnuel * |reductionRh| / 100 * (75/100)
      let totalMin := gainMargeMin + gainCogsMin + gainRhMin
      let totalMax := gainMargeMax + gainCogsMax + gainRhMax
      let inputsList :=
        (if hausseMarge ≠ 0 then
          [⟨"marge_brute", "Augmentation marge brute", hausseMarge, "points",
            "+" ++ numStr hausseMarge ++ " point(s) de marge"⟩]
         else [])
        ++ (if reductionCogs ≠ 0 then
          [⟨"reduction_cogs", "Réduction COGS", reductionCogs, "%",
            numStr reductionCogs ++ "% sur les coûts directs"⟩]
         else [])
        ++ (if reductionRh ≠ 0 then
          [⟨"reduction_rh", "Réduction charges RH", reductionRh, "%",
            numStr reductionRh ++ "% sur les charges de personnel"⟩]
         else [])
      let hypotheses :=
        (if hausseMarge ≠ 0 then
          ["Augmentation effective de la marge de " ++ numStr hausseMarge ++ " point(s)"]
         else [])
        ++ (if reductionCogs ≠ 0 then
          ["Négociation achats ou optimisation processus réussie"] else [])
        ++ (if reductionRh ≠ 0 then
          ["Optimisation sans dégradation de la qualité de service"] else [])
        ++ ["Maintien du volume d\u0027activité", "Pas d\u0027impact négatif sur la qualité"]
      let effects :=
        (if hausseMarge ≠ 0 then
          ["Renforcement de la capacité d\u0027autofinancement"] else [])
        ++ (if reductionRh ≠ 0 then ["Vigilance sur le climat social"] else [])
      let completeness := checkDataCompleteness data
        ["finance.caAnnuel", "finance.margeBrutePct", "costs.chargesRhPct"]
      some
        { id := "rentabilite_" ++ toString now
          type := .RENTABILITE
          title := "Simulation rentabilité"
          description := "Impact estimé sur le résultat net annuel"
          inputs := inputsList
          impactMin := jsRound totalMin
          impactMax := jsRound totalMax
          impactUnit := "€"
          impactLabel := "+" ++ formatCurrency totalMin ++ " à +" ++ formatCurrency totalMax
            ++ " / an"
          secondaryEffects := effects
          hypotheses := hypotheses
          confidenceLevel := calculateConfidence completeness .RENTABILITE
          priority := 2 }

/-- `simulateActivite` from src/lib/simulationEngine.ts lines 280-361. -/
def simulateActivite (data : AuditDataV2) (inputs : SimInputs) (now : ℤ) :
    Option SimulationResult :=
  let caAnnuel := data.finance.annualRevenue
  if caAnnuel = 0 then none
  else
    let hausseOccupation := (inputs "taux_occupation").getD 0
    let hausseProductivite := (inputs "ca_par_etp").getD 0
    if hausseOccupation = 0 ∧ hausseProductivite = 0 then none
    else
      let gainOccupationTheorique := (hausseOccupation / 100) * caAnnuel
      let gainOccupationMin := gainOccupationTheorique * (5/10)
      let gainOccupationMax := gainOccupationTheorique * (75/100)
      let gainProductiviteTheorique := (hausseProductivite / 100) * caAnnuel
      let gainProductiviteMin := gainProductiviteTheorique * (6/10)
      let gainProductiviteMax := gainProductiviteTheorique * (85/100)
      let totalMin := gainOccupationMin + gainProductiviteMin
      let totalMax := gainOccupationMax + gainProductiviteMax
      let inputsList :=
        (if hausseOccupation ≠ 0 then
          [⟨"taux_occupation", "Hausse taux d\u0027occupation", hausseOccupation, "points",
            "+" ++ numStr hausseOccupation ++ " points d\u0027occupation"⟩]
         else [])
        ++ (if hausseProductivite ≠ 0 then
          [⟨"ca_par_etp", "Hausse CA par ETP", hausseProductivite, "%",
            "+" ++ numStr hausseProductivite ++ "% de productivité"⟩]
         else [])
      let hypotheses :=
        (if hausseOccupation ≠ 0 then
          ["Amélioration du planning de " ++ numStr hausseOccupation ++ " points",
           "Demande suffisante pour absorber la capacité libérée"]
         else [])
        ++ (if hausseProductivite ≠ 0 then
          ["Gains de productivité de " ++ numStr hausseProductivite ++ "% réalisables"]
         else [])
        ++ ["Pas de saturation de la demande"]
      let effects :=
        (if hausseOccupation ≠ 0 then
          ["Effet positif potentiel sur la marge (économies d\u0027échelle)"] else [])
        ++ (if hausseProductivite ≠ 0 then ["Vigilance sur la charge de travail"] else [])
      let completeness := checkDataCompleteness data
        ["finance.caAnnuel", "ops.tauxOccupation", "productivity.effectifETP"]
      some
        { id := "activite_" ++ toString now
          type := .ACTIVITE
          title := "Simulation activité"
          description := "Impact estimé sur le chiffre d\u0027affaires annuel"
          inputs := inputsList
          impactMin := jsRound totalMin
          impactMax := jsRound totalMax
          impactUnit := "€"
          impactLabel := "+" ++ formatCurrency totalMin ++ " à +" ++ formatCurrency totalMax
            ++ " / an"
          secondaryEffects := effects
          hypotheses := hypotheses
          confidenceLevel := calculateConfidence completeness .ACTIVITE
          priority := 3 }

/-- `simulateCommercial` from src/lib/simulationEngine.ts lines 363-450. -/
def simulateCommercial (data : AuditDataV2) (inputs : SimInputs) (now : ℤ) :
    Option SimulationResult :=
  let caAnnuel := data.finance.annualRevenue
  let panierMoyen := caAnnuel / 1000
  if caAnnuel = 0 then none
  else
    let hausseConversion := (inputs "taux_conversion").getD 0
    let haussePanier := (inputs "panier_moyen").getD 0
    if hausseConversion = 0 ∧ haussePanier = 0 then none
    else
      let gainConversionTheorique := (hausseConversion / 100) * caAnnuel
      let gainConversionMin := gainConversionTheorique * (3/10)
      let gainConversionMax := gainConversionTheorique * (6/10)
      let gainPanierTheorique := (haussePanier / 100) * caAnnuel
      let gainPanierMin := gainPanierTheorique * (5/10)
      let gainPanierMax := gainPanierTheorique * (8/10)
      let totalMin := gainConversionMin + gainPanierMin
      let totalMax := gainConversionMax + gainPanierMax
      let nbTransactions := caAnnuel / panierMoyen
      let sensibilite :=
        if nbTransactions > 10000 then "élevée"
        else if nbTransactions < 500 then "faible"
        else "modérée"
      let inputsList :=
        (if hausseConversion ≠ 0 then
          [⟨"taux_conversion", "Hausse taux de conversion", hausseConversion, "points",
            "+" ++ numStr hausseConversion ++ " point(s) de conversion"⟩]
         else [])
        ++ (if haussePanier ≠ 0 then
          [⟨"panier_moyen", "Hausse panier moyen", haussePanier, "%",
            "+" ++ numStr haussePanier ++ "% sur le panier moyen"⟩]
         else [])
      let hypotheses :=
        (if hausseConversion ≠ 0 then
          ["Amélioration du parcours client et de l\u0027argumentaire",
           "Trafic entrant maintenu ou en hausse"]
         else [])
        ++ (if haussePanier ≠ 0 then
          ["Stratégie d\u0027upsell/cross-sell effective"] else [])
      let effects :=
        (if haussePanier ≠ 0 then ["Meilleure marge unitaire possible"] else [])
        ++ ["Sensibilité au volume : " ++ sensibilite]
      let completeness := checkDataCompleteness data
        ["finance.caAnnuel", "commercial.panierMoyen", "commercial.digitalPct"]
      some
        { id := "commercial_" ++ toString now
          type := .COMMERCIAL
          title := "Simulation commerciale"
          description := "Impact estimé sur le chiffre d\u0027affaires"
          inputs := inputsList
          impactMin := jsRound totalMin
          impactMax := jsRound totalMax
          impactUnit := "€"
          impactLabel := "+" ++ formatCurrency totalMin ++ " à +" ++ formatCurrency totalMax
            ++ " / an"
          secondaryEffects := effects
          hypotheses := hypotheses
          confidenceLevel := calculateConfidence completeness .COMMERCIAL
          priority := 4 }

/-- `simulateRH` from src/lib/simulationEngine.ts lines 452-543. -/
def simulateRH (data : AuditDataV2) (inputs : SimInputs) (now : ℤ) :
    Option SimulationResult :=
  let caAnnuel := data.finance.annualRevenue
  let chargesRh := data.costs.hrCostsPercent
  let effectif := data.ops.productivity.fte
  if caAnnuel = 0 then none
  else
    let baisseTurnover := (inputs "turnover").getD 0
    let baisseAbsenteisme := (inputs "absenteisme").getD 0
    if baisseTurnover = 0 ∧ baisseAbsenteisme = 0 then none
    else
      let chargesRhAnnuel := caAnnuel * (chargesRh / 100)
      let coutParEtp := chargesRhAnnuel / effectif
      let coutRecrutement := coutParEtp * (4/10)
      let reductionDeparts := effectif * (|baisseTurnover| / 100)
      let gainTurnoverMin := reductionDeparts * coutRecrutement * (4/10)
      let gainTurnoverMax := reductionDeparts * coutRecrutement * (7/10)
      let joursParAn : ℚ := 220
      let joursRecuperes := effectif * joursParAn * (|baisseAbsenteisme| / 100)
      let valeurJour := caAnnuel / (effectif * joursParAn)
      let gainAbsenteismeMin := joursRecuperes * valeurJour * (3/10)
      let gainAbsenteismeMax := joursRecuperes * valeurJour * (5/10)
      let totalMin := gainTurnoverMin + gainAbsenteismeMin
      let totalMax := gainTurnoverMax + gainAbsenteismeMax
      let inputsList :=
        (if baisseTurnover ≠ 0 then
          [⟨"turnover", "Baisse turnover", baisseTurnover, "points",
            numStr baisseTurnover ++ " points de turnover"⟩]
         else [])
        ++ (if baisseAbsenteisme ≠ 0 then
          [⟨"absenteisme", "Baisse absentéisme", baisseAbsenteisme, "points",
            numStr baisseAbsenteisme ++ " point(s) d\u0027absentéisme"⟩]
         else [])
      let hypotheses :=
        (if baisseTurnover ≠ 0 then
          ["Actions de fidélisation effectives (formation, management, rémunération)"]
         else [])
        ++ (if baisseAbsenteisme ≠ 0 then
          ["Amélioration des conditions de travail et prévention"] else [])
        ++ ["Estimation indirecte — impact réel variable selon contexte"]
      let effects :=
        (if baisseTurnover ≠ 0 then
          ["Préservation des compétences clés", "Réduction des coûts de recrutement"]
         else [])
        ++ (if baisseAbsenteisme ≠ 0 then ["Meilleure continuité de service"] else [])
        ++ ["⚠️ Impact qualitatif > impact financier direct"]
      let completeness := checkDataCompleteness data
        ["finance.caAnnuel", "costs.chargesRhPct", "productivity.effectifETP",
         "quality.turnoverAnnuel", "quality.tauxAbsenteisme"]
      some
        { id := "rh_" ++ toString now
          type := .RH
          title := "Simulation RH"
          description := "Impact indirect estimé (ordre de grandeur)"
          inputs := inputsList
          impactMin := jsRound totalMin
          impactMax := jsRound totalMax
          impactUnit := "€"
          impactLabel := "+" ++ formatCurrency totalMin ++ " à +" ++ formatCurrency totalMax
            ++ " / an (estimation indirecte)"
          secondaryEffects := effects
          hypotheses := hypotheses
          confidenceLevel := calculateConfidence completeness .RH
          priority := 5 }

/-- `runSimulation` from src/lib/simulationEngine.ts lines 596-615, with the
`Date.now()` clock read threaded through as `now`. -/
def runSimulation (type : SimulationType) (data : AuditDataV2) (inputs : SimInputs)
    (now : ℤ) : Option SimulationResult :=
  match type with
  | .TRESORERIE => simulateTresorerie data inputs now
  | .RENTABILITE => simulateRentabilite data inputs now
  | .ACTIVITE => simulateActivite data inputs now
  | .COMMERCIAL => simulateCommercial data inputs now
  | .RH => simulateRH data inputs now

-- ===== Quantified recommendations (declared in src/types/audit.ts, engine
-- ===== absent from src/; modelled from the spec, section 4.5)

/-- `ImpactType` from src/types/audit.ts (accents dropped in constructor names). -/
inductive ImpactType where
  | CA
  | MARGE
  | TRESORERIE
  | COUTS
  deriving DecidableEq

/-- `QuantifiedRecommendation` from src/types/audit.ts lines 170-178. -/
structure QuantifiedRecommendation where
  lever : String
  impactType : ImpactType
  estimatedImpactMin : ℚ
  estimatedImpactMax : ℚ
  unit : String
  assumptions : List String
  confidenceLevel : ConfidenceLevel
  deriving DecidableEq

/-- Modelled from the spec: one rule of the quantification rule table
(`{id, condition(record,scores)→bool, leverText, impactType,
calculateImpact(record)→{min,max}, assumptions, confidenceLevel}`).
The engine that evaluates this table is declared and consumed in src
(`DecisionOutput.quantifiedRecommendations`, the recommendations table
component) but its implementation is not under src/, so every
`calculateImpact` is modelled per the spec as a proportional band
`[minCoef, maxCoef] × annualRevenue`. -/
structure QuantRule where
  id : String
  condition : AuditDataV2 → Scores → Bool
  lever : String
  impactType : ImpactType
  minCoef : ℚ
  maxCoef : ℚ
  assumptions : List String
  confidenceLevel : ConfidenceLevel

/-- Modelled from the spec: the quantification rule table, one rule per
category named in section 4.5 (occupancy, HR-cost reduction, absenteeism
reduction, gross-margin improvement, digitalization, cash optimization,
productivity, turnover reduction). The spec fixes only the occupancy band
(`[3%,6%] × revenue`); the other bands are representative conservative
constants with `minCoef ≤ maxCoef`, which is all the claims rely on. -/
def QUANTIFICATION_RULES : List QuantRule :=
  [ { id := "improve_occupancy"
      condition := fun d _ => decide (d.ops.occupancyRatePercent < 75)
      lever := "Améliorer le taux d\u0027occupation"
      impactType := .CA, minCoef := 3/100, maxCoef := 6/100
      assumptions := ["Demande suffisante pour absorber la capacité libérée"]
      confidenceLevel := .MOYEN }
  , { id := "reduce_hr_costs"
      condition := fun d _ => decide (d.costs.hrCostsPercent > 50)
      lever := "Optimiser les coûts RH"
      impactType := .COUTS, minCoef := 2/100, maxCoef := 4/100
      assumptions := ["Optimisation sans dégradation de la qualité de service"]
      confidenceLevel := .MOYEN }
  , { id := "reduce_absenteeism"
      condition := fun d _ => decide (((d.hr.bind HRData.absenteeismRatePercent).getD 0) > 8)
      lever := "Réduire l\u0027absentéisme"
      impactType := .COUTS, minCoef := 1/100, maxCoef := 2/100
      assumptions := ["Amélioration des conditions de travail et prévention"]
      confidenceLevel := .FAIBLE }
  , { id := "improve_gross_margin"
      condition := fun _ s => decide (s.financier < 60)
      lever := "Améliorer la marge brute"
      impactType := .MARGE, minCoef := 2/100, maxCoef := 5/100
      assumptions := ["Révision tarifaire acceptée par la clientèle"]
      confidenceLevel := .MOYEN }
  , { id := "digitalize"
      condition := fun d _ => decide (d.commercial.digitalizationPercent < 60)
      lever := "Digitaliser les interactions client"
      impactType := .CA, minCoef := 2/100, maxCoef := 4/100
      assumptions := ["Adoption effective des outils digitaux"]
      confidenceLevel := .MOYEN }
  , { id := "optimize_cash"
      condition := fun d _ => match d.finance.cashRunwayMonths with
        | some m => decide (m < 6)
        | none => false
      lever := "Optimiser la trésorerie"
      impactType := .TRESORERIE, minCoef := 1/100, maxCoef := 3/100
      assumptions := ["Renégociation des délais de paiement"]
      confidenceLevel := .BON }
  , { id := "improve_productivity"
      condition := fun _ s => decide (s.operationnel < 60)
      lever := "Améliorer la productivité"
      impactType := .CA, minCoef := 2/100, maxCoef := 5/100
      assumptions := ["Processus optimisables identifiés"]
      confidenceLevel := .MOYEN }
  , { id := "reduce_turnover"
      condition := fun d _ => decide (((d.hr.bind HRData.turnoverRatePercent).getD 0) > 25)
      lever := "Réduire le turnover"
      impactType := .COUTS, minCoef := 1/100, maxCoef := 2/100
      assumptions := ["Actions de fidélisation effectives"]
      confidenceLevel := .FAIBLE } ]

/-- Modelled from the spec: one produced recommendation. -/
def applyQuantRule (v2 : AuditDataV2) (r : QuantRule) : QuantifiedRecommendation :=
  { lever := r.lever
    impactType := r.impactType
    estimatedImpactMin := r.minCoef * v2.finance.annualRevenue
    estimatedImpactMax := r.maxCoef * v2.finance.annualRevenue
    unit := "€"
    assumptions := r.assumptions
    confidenceLevel := r.confidenceLevel }

/-- Stable insertion preserving descending `estimatedImpactMax` order
(the spec sorts descending by max impact). -/
def insertDescByMax (r : QuantifiedRecommendation) :
    List QuantifiedRecommendation → List QuantifiedRecommendation
  | [] => [r]
  | b :: t =>
    if b.estimatedImpactMax ≤ r.estimatedImpactMax then r :: b :: t
    else b :: insertDescByMax r t

/-- Sort descending by `estimatedImpactMax`. -/
def sortDescByMax : List QuantifiedRecommendation → List QuantifiedRecommendation
  | [] => []
  | r :: t => insertDescByMax r (sortDescByMax t)

/-- Modelled from the spec: all rules whose condition holds produce a
recommendation; the list is sorted descending by max impact and truncated to 5. -/
def computeQuantifiedRecommendations (v2 : AuditDataV2) (scores : Scores) :
    List QuantifiedRecommendation :=
  (sortDescByMax
    ((QUANTIFICATION_RULES.filter (fun r => r.condition v2 scores)).map
      (applyQuantRule v2))).take 5

/-- `DecisionOutput` as declared in src/types/audit.ts lines 180-188
(with the quantified recommendations list). -/
structure DecisionOutputFull where
  priorityLevel : PriorityLevel
  topRisks : List String
  topLevers : List String
  quickWins : List String
  structuralActions : List String
  decisionSummary : String
  quantifiedRecommendations : List QuantifiedRecommendation
  deriving DecidableEq

/-- Modelled from the spec: the decision engine output in the full
src/types/audit.ts shape, extending the src decision engine with the
modelled quantified-recommendation pipeline. -/
def computeDecisionOutputFull (auditData : AuditData) (scores : Scores)
    (warnings : List AuditWarning) : DecisionOutputFull :=
  let base := computeDecisionOutput auditData scores warnings
  { priorityLevel := base.priorityLevel
    topRisks := base.topRisks
    topLevers := base.topLevers
    quickWins := base.quickWins
    structuralActions := base.structuralActions
    decisionSummary := base.decisionSummary
    quantifiedRecommendations :=
      computeQuantifiedRecommendations (normalizeToV2 auditData) scores }

-- ============= Shared records for concrete evaluations =============

/-- Concrete Services-sector record: digitalization just below the critical
threshold (70), all commercial optional inputs absent. -/
def recSvc : AuditDataV2 :=
  { businessName := "x", sector := "Services", variant := none, auditDate := ""
    dataOrigin := "manual"
    finance := { annualRevenue := 450000, grossMarginPercent := 80
                 netMarginPercent := none, cashRunwayMonths := none }
    costs := { hrCostsPercent := 40, cogsPercent := none, fixedCostsPercent := none }
    ops := { occupancyRatePercent := 95
             productivity := { fte := 3, revenuePerFte := none }, quality := none }
    hr := none
    commercial := { digitalizationPercent := 69, loyaltyPercent := none
                    satisfaction := none }
    nbServices := some 6 }

/-- The Services benchmark variant of the static table. -/
def svcBM : BenchmarkMetrics := mkMetrics
  ⟨65/100, 80/100, 88/100⟩ ⟨100000, 150000, 200000⟩
  ⟨60/100, 50/100, 40/100⟩ ⟨70, 90, 98⟩ ⟨70, 88, 95⟩

/-- Concrete Vétérinaire record with a 2-month cash runway present (and every
mandatory metric at the top tier). -/
def recVetoA : AuditDataV2 :=
  { businessName := "x", sector := "Vétérinaire", variant := none, auditDate := ""
    dataOrigin := "manual"
    finance := { annualRevenue := 450000, grossMarginPercent := 80
                 netMarginPercent := none, cashRunwayMonths := some 2 }
    costs := { hrCostsPercent := 40, cogsPercent := none, fixedCostsPercent := none }
    ops := { occupancyRatePercent := 95
             productivity := { fte := 3, revenuePerFte := none }, quality := none }
    hr := none
    commercial := { digitalizationPercent := 95, loyaltyPercent := some 92
                    satisfaction := none }
    nbServices := some 6 }

/-- `recVetoA` with the cash runway made absent (one more missing optional field). -/
def recVetoB : AuditDataV2 :=
  { recVetoA with finance := { recVetoA.finance with cashRunwayMonths := none } }

/-- The Vétérinaire default benchmark variant of the static table. -/
def vetoBM : BenchmarkMetrics := mkMetrics
  ⟨55/100, 70/100, 75/100⟩ ⟨70000, 100000, 130000⟩
  ⟨70/100, 55/100, 50/100⟩ ⟨30, 80, 95⟩ ⟨60, 85, 92⟩

-- ============= C8: all-zero / zero-revenue simulation guards =============

/-- All deltas of the given scenario type read as zero (each simulator reads
its own fixed key set with `|| 0`). -/
def scenarioDeltasZero (t : SimulationType) (inputs : SimInputs) : Prop :=
  match t with
  | .TRESORERIE =>
    (inputs "delai_client").getD 0 = 0 ∧ (inputs "delai_fournisseur").getD 0 = 0
      ∧ (inputs "reduction_charges").getD 0 = 0
  | .RENTABILITE =>
    (inputs "marge_brute").getD 0 = 0 ∧ (inputs "reduction_cogs").getD 0 = 0
      ∧ (inputs "reduction_rh").getD 0 = 0
  | .ACTIVITE =>
    (inputs "taux_occupation").getD 0 = 0 ∧ (inputs "ca_par_etp").getD 0 = 0
  | .COMMERCIAL =>
    (inputs "taux_conversion").getD 0 = 0 ∧ (inputs "panier_moyen").getD 0 = 0
  | .RH =>
    (inputs "turnover").getD 0 = 0 ∧ (inputs "absenteisme").getD 0 = 0

/-- The all-zero input map of the spec scenario
`{delai_client: 0, delai_fournisseur: 0, reduction_charges: 0}`. -/
def tresorerieZeroInputs : SimInputs := fun k =>
  if k = "delai_client" ∨ k = "delai_fournisseur" ∨ k = "reduction_charges" then some 0
  else none

/-- Claim C8: `runSimulation` returns null whenever all of the scenario deltas
are zero or the record annual revenue is zero (the only way a V2 record models
an absent revenue); in particular the all-zero TRESORERIE scenario returns
null for every record. -/
theorem C8_runSimulation_null_guards (t : SimulationType) (d : AuditDataV2)
    (inputs : SimInputs) (now : ℤ)
    (h : d.finance.annualRevenue = 0 ∨ scenarioDeltasZero t inputs) :
    runSimulation t d inputs now = none := by
  cases t <;>
    rcases h with h | h <;>
    simp only [runSimulation, simulateTresorerie, simulateRentabilite, simulateActivite,
      simulateCommercial, simulateRH, scenarioDeltasZero] at h ⊢ <;>
    simp [h]

/-- Witness for C8 at a concrete record and the all-zero TRESORERIE inputs. -/
theorem C8_witness :
    (recSvc.finance.annualRevenue = 0 ∨ scenarioDeltasZero .TRESORERIE tresorerieZeroInputs)
    ∧ runSimulation .TRESORERIE recSvc tresorerieZeroInputs 0 = none := by
  have hz : recSvc.finance.annualRevenue = 0
      ∨ scenarioDeltasZero .TRESORERIE tresorerieZeroInputs := by
    right
    refine ⟨?_, ?_, ?_⟩ <;> rfl
  exact ⟨hz, C8_runSimulation_null_guards .TRESORERIE recSvc tresorerieZeroInputs 0 hz⟩

-- ============= C9: determinism of the simulation engine =============

/-- Forget the `id` field (the only field built from the `Date.now()` read). -/
def eraseSimId (r : SimulationResult) : SimulationResult := { r with id := "" }

/-- The TRESORERIE inputs used for the clock counterexample: a 10-day
client-delay delta. -/
def inpDelaiClient : SimInputs := fun k => if k = "delai_client" then some 10 else none

/-- Claim C9 counterexample: two invocations of `runSimulation` with identical
`(type, record, inputs)` arguments but different clock instants return
different `SimulationResult` values (their ids embed `Date.now()`), refuting
the claim that every field is independent of hidden state and the clock. -/
theorem C9_counterexample :
    runSimulation .TRESORERIE recSvc inpDelaiClient 0
      ≠ runSimulation .TRESORERIE recSvc inpDelaiClient 1 := by
  intro h
  have h2 : (runSimulation .TRESORERIE recSvc inpDelaiClient 0).map SimulationResult.id
      = (runSimulation .TRESORERIE recSvc inpDelaiClient 1).map SimulationResult.id := by
    rw [h]
  norm_num [runSimulation, simulateTresorerie, recSvc, inpDelaiClient] at h2
  exact absurd h2 (by decide)

/-- Claim C9 (amended): apart from the `id` field, which embeds the
`Date.now()` timestamp, `runSimulation` is a pure function of
`(type, record, inputs)`: the results of two invocations at arbitrary clock
instants agree on every other field. -/
theorem C9_runSimulation_deterministic (t : SimulationType) (d : AuditDataV2)
    (inputs : SimInputs) (n1 n2 : ℤ) :
    (runSimulation t d inputs n1).map eraseSimId
      = (runSimulation t d inputs n2).map eraseSimId := by
  cases t <;>
    simp only [runSimulation, simulateTresorerie, simulateRentabilite, simulateActivite,
      simulateCommercial, simulateRH] <;>
    split_ifs <;>
    simp [eraseSimId]

-- ============= C10: absent optional data never triggers the defaulted rules ==

/-- Claim C10: when `hr`, `loyaltyPercent` and `satisfaction` are all absent,
none of the eight risk rules that read them through optimistic defaults
(loyalty 100, CSAT 100, NPS 50, absenteeism and turnover 0) can trigger, for
any scores — so omitting this optional data only shrinks the triggered set. -/
theorem C10_absent_optionals_never_trigger (v2 : AuditDataV2) (scores : Scores)
    (hhr : v2.hr = none) (hloy : v2.commercial.loyaltyPercent = none)
    (hsat : v2.commercial.satisfaction = none) :
    ∀ rule ∈ RISK_RULES,
      rule.id ∈ ["low_loyalty", "low_satisfaction", "negative_nps", "hr_cost_high",
        "high_absenteeism", "critical_absenteeism", "high_turnover", "critical_turnover"] →
      rule.condition v2 scores = false := by
  intro rule hmem hid
  fin_cases hmem <;> simp_all [runwayCriticalRule] <;> norm_num [hhr, hloy, hsat]

/-- Witness for C10 at a concrete record with the optional data absent. -/
theorem C10_witness :
    recSvc.hr = none ∧ recSvc.commercial.loyaltyPercent = none
    ∧ recSvc.commercial.satisfaction = none
    ∧ ∀ rule ∈ RISK_RULES,
        rule.id ∈ ["low_loyalty", "low_satisfaction", "negative_nps", "hr_cost_high",
          "high_absenteeism", "critical_absenteeism", "high_turnover", "critical_turnover"] →
        rule.condition recSvc ⟨50, 50, 50, 50, 50⟩ = false := by
  exact ⟨rfl, rfl, rfl,
    C10_absent_optionals_never_trigger recSvc ⟨50, 50, 50, 50, 50⟩ rfl rfl rfl⟩

-- ============= C7: critical runway warning and CRITIQUE priority =============

/-- Rule 1 block of `getAuditWarnings` (COGS + gross margin coherence). -/
def warnRule1 (v2 : AuditDataV2) : List AuditWarning :=
  match v2.costs.cogsPercent with
  | some cogs =>
    let total := v2.finance.grossMarginPercent + cogs
    if |total - 100| > 8 then
      [⟨.warning, "Incohérence : Marge brute (" ++ numStr v2.finance.grossMarginPercent
         ++ "%) + COGS (" ++ numStr cogs ++ "%) = " ++ numStr total
         ++ "% (devrait être proche de 100%)", some "cogsPercent"⟩]
    else []
  | none => []

/-- Rule 2 block (net margin above gross margin). -/
def warnRule2 (v2 : AuditDataV2) : List AuditWarning :=
  match v2.finance.netMarginPercent with
  | some nm =>
    if nm > v2.finance.grossMarginPercent then
      [⟨.warning, "Incohérence : La marge nette (" ++ numStr nm
         ++ "%) ne peut pas dépasser la marge brute ("
         ++ numStr v2.finance.grossMarginPercent ++ "%)", some "netMarginPercent"⟩]
    else []
  | none => []

/-- Rule 3 block (total cost structure above 115% of revenue). -/
def warnRule3 (v2 : AuditDataV2) : List AuditWarning :=
  let totalCosts := v2.costs.hrCostsPercent + (v2.costs.cogsPercent.getD 0)
    + (v2.costs.fixedCostsPercent.getD 0)
  if totalCosts > 115 then
    [⟨.warning, "Structure de coûts élevée : RH (" ++ numStr v2.costs.hrCostsPercent
       ++ "%) + COGS (" ++ numStr (v2.costs.cogsPercent.getD 0) ++ "%) + Fixes ("
       ++ numStr (v2.costs.fixedCostsPercent.getD 0) ++ "%) = " ++ numStr totalCosts
       ++ "% du CA", some "costs"⟩]
  else []

/-- Rule 4 block (very high occupancy). -/
def warnRule4 (v2 : AuditDataV2) : List AuditWarning :=
  if v2.ops.occupancyRatePercent > 95 then
    [⟨.warning, "Taux d\u0027occupation très élevé (" ++ numStr v2.ops.occupancyRatePercent
       ++ "%) : risque de surcharge et qualité de service impactée",
      some "occupancyRatePercent"⟩]
  else []

/-- Rule 5 block (critical absenteeism). -/
def warnRule5 (v2 : AuditDataV2) : List AuditWarning :=
  match v2.hr.bind HRData.absenteeismRatePercent with
  | some ab =>
    if ab > 15 then
      [⟨.critical, "Taux d\u0027absentéisme critique (" ++ numStr ab
         ++ "%) : risque RH majeur à traiter en priorité", some "absenteeismRatePercent"⟩]
    else []
  | none => []

/-- Rule 6 block (critical turnover). -/
def warnRule6 (v2 : AuditDataV2) : List AuditWarning :=
  match v2.hr.bind HRData.turnoverRatePercent with
  | some tv =>
    if tv > 40 then
      [⟨.critical, "Turnover critique (" ++ numStr tv
         ++ "%) : instabilité des équipes, coûts de recrutement élevés",
        some "turnoverRatePercent"⟩]
    else []
  | none => []

/-- Rule 7 block (high return rate). -/
def warnRule7 (v2 : AuditDataV2) : List AuditWarning :=
  match v2.ops.quality.bind QualityData.returnRatePercent with
  | some rr =>
    if rr > 10 then
      [⟨.warning, "Taux de retours/erreurs élevé (" ++ numStr rr
         ++ "%) : impact sur la satisfaction client", some "returnRatePercent"⟩]
    else []
  | none => []

/-- Rule 8 block (critical cash runway). -/
def warnRule8 (v2 : AuditDataV2) : List AuditWarning :=
  match v2.finance.cashRunwayMonths with
  | some m =>
    if m < 3 then
      [⟨.critical, "Trésorerie critique : runway de " ++ numStr m
         ++ " mois seulement", some "cashRunwayMonths"⟩]
    else []
  | none => []

/-- Rule 9 block (negative NPS). -/
def warnRule9 (v2 : AuditDataV2) : List AuditWarning :=
  match v2.commercial.satisfaction.bind SatisfactionData.nps with
  | some n =>
    if n < 0 then
      [⟨.warning, "NPS négatif (" ++ numStr n
         ++ ") : plus de détracteurs que de promoteurs", some "nps"⟩]
    else []
  | none => []

/-- Rule 10 block (low CSAT). -/
def warnRule10 (v2 : AuditDataV2) : List AuditWarning :=
  match v2.commercial.satisfaction.bind SatisfactionData.csatPercent with
  | some cs =>
    if cs < 70 then
      [⟨.warning, "Satisfaction client faible (CSAT: " ++ numStr cs
         ++ "%) : risque de churn élevé", some "csatPercent"⟩]
    else []
  | none => []

/-- `getAuditWarnings` is exactly the concatenation of its ten rule blocks. -/
theorem getAuditWarnings_blocks (data : AuditData) :
    getAuditWarnings data =
      (let v2 := normalizeToV2 data
       warnRule1 v2 ++ warnRule2 v2 ++ warnRule3 v2 ++ warnRule4 v2 ++ warnRule5 v2
         ++ warnRule6 v2 ++ warnRule7 v2 ++ warnRule8 v2 ++ warnRule9 v2 ++ warnRule10 v2) :=
  rfl

/-- The critical-severity filter used by claim C7. -/
def isCriticalW (w : AuditWarning) : Bool := decide (w.type = WarnType.critical)

/-- Blocks built from a warning-severity entry contribute nothing to the
critical filter. -/
theorem filter_crit_warnRule1 (v2 : AuditDataV2) :
    (warnRule1 v2).filter isCriticalW = [] := by
  unfold warnRule1
  rcases v2.costs.cogsPercent with _ | c <;> simp [isCriticalW]

theorem filter_crit_warnRule2 (v2 : AuditDataV2) :
    (warnRule2 v2).filter isCriticalW = [] := by
  unfold warnRule2
  rcases v2.finance.netMarginPercent with _ | c <;> simp [isCriticalW]

theorem filter_crit_warnRule3 (v2 : AuditDataV2) :
    (warnRule3 v2).filter isCriticalW = [] := by
  unfold warnRule3
  dsimp only
  split_ifs <;> simp [isCriticalW]

theorem filter_crit_warnRule4 (v2 : AuditDataV2) :
    (warnRule4 v2).filter isCriticalW = [] := by
  unfold warnRule4
  split_ifs <;> simp [isCriticalW]

theorem filter_crit_warnRule7 (v2 : AuditDataV2) :
    (warnRule7 v2).filter isCriticalW = [] := by
  unfold warnRule7
  rcases v2.ops.quality.bind QualityData.returnRatePercent with _ | c <;>
    simp [isCriticalW]

theorem filter_crit_warnRule9 (v2 : AuditDataV2) :
    (warnRule9 v2).filter isCriticalW = [] := by
  unfold warnRule9
  rcases v2.commercial.satisfaction.bind SatisfactionData.nps with _ | c <;>
    simp [isCriticalW]

theorem filter_crit_warnRule10 (v2 : AuditDataV2) :
    (warnRule10 v2).filter isCriticalW = [] := by
  unfold warnRule10
  rcases v2.commercial.satisfaction.bind SatisfactionData.csatPercent with _ | c <;>
    simp [isCriticalW]

/-- Rule 5 contributes nothing when absenteeism, if present, is at most 15. -/
theorem filter_crit_warnRule5 (v2 : AuditDataV2)
    (h : ∀ a, v2.hr.bind HRData.absenteeismRatePercent = some a → a ≤ 15) :
    (warnRule5 v2).filter isCriticalW = [] := by
  unfold warnRule5
  rcases hab : v2.hr.bind HRData.absenteeismRatePercent with _ | a
  · simp
  · have := h a hab
    dsimp only
    rw [if_neg (not_lt.mpr this)]
    rfl

/-- Rule 6 contributes nothing when turnover, if present, is at most 40. -/
theorem filter_crit_warnRule6 (v2 : AuditDataV2)
    (h : ∀ t, v2.hr.bind HRData.turnoverRatePercent = some t → t ≤ 40) :
    (warnRule6 v2).filter isCriticalW = [] := by
  unfold warnRule6
  rcases htv : v2.hr.bind HRData.turnoverRatePercent with _ | t
  · simp
  · have := h t htv
    dsimp only
    rw [if_neg (not_lt.mpr this)]
    rfl

/-- Membership is preserved by severity insertion. -/
theorem mem_insertBySeverity {x r : RiskRule} {l : List RiskRule} :
    x ∈ insertBySeverity r l ↔ x = r ∨ x ∈ l := by
  induction l with
  | nil => simp [insertBySeverity]
  | cons b t ih =>
    unfold insertBySeverity
    split_ifs <;> simp [ih] <;> tauto

/-- Membership is preserved by the severity sort. -/
theorem mem_sortBySeverity {x : RiskRule} {l : List RiskRule} :
    x ∈ sortBySeverity l ↔ x ∈ l := by
  induction l with
  | nil => simp [sortBySeverity]
  | cons b t ih =>
    unfold sortBySeverity
    rw [mem_insertBySeverity, ih, List.mem_cons]

/-- Claim C7: with a 2-month cash runway and no other critical-warning
condition (absenteeism at most 15, turnover at most 40 when present), the
warnings engine emits exactly one critical warning and it references
`cashRunwayMonths`; and the decision engine priority is CRITIQUE for every
possible scores value. -/
theorem C7_runway2_critical (v2 : AuditDataV2)
    (hrun : v2.finance.cashRunwayMonths = some 2)
    (habs : ∀ a, v2.hr.bind HRData.absenteeismRatePercent = some a → a ≤ 15)
    (htv : ∀ t, v2.hr.bind HRData.turnoverRatePercent = some t → t ≤ 40) :
    (∃ w, (getAuditWarnings (.v2 v2)).filter isCriticalW = [w]
       ∧ w.type = WarnType.critical ∧ w.field = some "cashRunwayMonths")
    ∧ ∀ (scores : Scores) (warnings : List AuditWarning),
        (computeDecisionOutput (.v2 v2) scores warnings).priorityLevel = .CRITIQUE := by
  constructor
  · have h8 : (warnRule8 v2).filter isCriticalW =
        [⟨.critical, "Trésorerie critique : runway de " ++ numStr 2
           ++ " mois seulement", some "cashRunwayMonths"⟩] := by
      unfold warnRule8
      rw [hrun]
      dsimp only
      rw [if_pos (by norm_num)]
      rfl
    have hfilter : (getAuditWarnings (.v2 v2)).filter isCriticalW =
        [⟨.critical, "Trésorerie critique : runway de " ++ numStr 2
           ++ " mois seulement", some "cashRunwayMonths"⟩] := by
      rw [getAuditWarnings_blocks]
      simp only [normalizeToV2, List.filter_append, filter_crit_warnRule1,
        filter_crit_warnRule2, filter_crit_warnRule3, filter_crit_warnRule4,
        filter_crit_warnRule5 v2 habs, filter_crit_warnRule6 v2 htv,
        filter_crit_warnRule7, filter_crit_warnRule9, filter_crit_warnRule10, h8]
      rfl
    exact ⟨_, hfilter, rfl, rfl⟩
  · intro scores warnings
    have hrc : runwayCriticalRule ∈ RISK_RULES.filter
        (fun r => r.condition (normalizeToV2 (.v2 v2)) scores) := by
      rw [List.mem_filter]
      constructor
      · simp [RISK_RULES]
      · simp only [runwayCriticalRule, normalizeToV2, hrun]
        norm_num
    unfold computeDecisionOutput determinePriorityLevel
    have hcrit : (sortBySeverity (RISK_RULES.filter
        (fun r => r.condition (normalizeToV2 (.v2 v2)) scores))).any
        (fun r => r.severity = Severity.critical) = true := by
      rw [List.any_eq_true]
      exact ⟨runwayCriticalRule, mem_sortBySeverity.mpr hrc, by simp [runwayCriticalRule]⟩
    by_cases hg : scores.global < 40
    · simp [hg]
    · simp [hg, hcrit]

/-- Witness for C7 at the concrete 2-month-runway record. -/
theorem C7_witness :
    recVetoA.finance.cashRunwayMonths = some 2
    ∧ (∃ w, (getAuditWarnings (.v2 recVetoA)).filter isCriticalW = [w]
        ∧ w.type = WarnType.critical ∧ w.field = some "cashRunwayMonths")
    ∧ (computeDecisionOutput (.v2 recVetoA) ⟨95, 95, 95, 95, 95⟩ []).priorityLevel
        = .CRITIQUE := by
  have h := C7_runway2_critical recVetoA rfl
    (by intro a ha; simp [recVetoA] at ha)
    (by intro t ht; simp [recVetoA] at ht)
  exact ⟨rfl, h.1, h.2 ⟨95, 95, 95, 95, 95⟩ []⟩



-- ============= C6: the sector normalizer is total and falls back =============

/-- A lookup result is one of the association-list values. -/
theorem lookupPairs_mem {α : Type} {k : String} {l : List (String × α)} {v : α}
    (h : lookupPairs k l = some v) : v ∈ l.map Prod.snd := by
  induction l with
  | nil => simp [lookupPairs] at h
  | cons p t ih =>
    rw [lookupPairs] at h
    split_ifs at h with hb
    · cases h
      simp
    · simp [ih h]

/-- Every synonym value is an allowed canonical sector. -/
theorem synonyms_values_allowed :
    ∀ v ∈ SECTOR_SYNONYMS.map Prod.snd, v ∈ ALLOWED_SECTORS := by
  decide

/-- No exact identifier, synonym, or substring match exists for the
normalized form of the raw text. -/
def noSectorMatch (raw : String) : Prop :=
  ALLOWED_SECTORS.contains (normalizeForSectorMatch raw) = false
  ∧ lookupPairs (normalizeForSectorMatch raw) SECTOR_SYNONYMS = none
  ∧ SECTOR_SYNONYMS.find?
      (fun p => strIncludes (normalizeForSectorMatch raw) p.1
        || strIncludes p.1 (normalizeForSectorMatch raw)) = none

/-- A list is a prefix of itself followed by anything. -/
theorem isPrefixOf_append_self (n y : List Char) : n.isPrefixOf (n ++ y) = true := by
  induction n with
  | nil => cases y <;> rfl
  | cons c t ih => simpa [List.isPrefixOf] using ih

/-- The JS `includes` test succeeds on any string with the needle in the middle. -/
theorem containsSub_append_mid (x n y : List Char) :
    containsSub (x ++ n ++ y) n = true := by
  induction x with
  | nil =>
    cases hn : n ++ y with
    | nil => simp_all [containsSub]
    | cons c t =>
      simp only [List.nil_append, hn, containsSub]
      rw [← hn, isPrefixOf_append_self]
      rfl
  | cons c t ih =>
    simp only [List.cons_append, containsSub]
    split_ifs with h
    · rfl
    · simpa using ih

/-- The no-match branch of the sector normalizer, characterized. -/
theorem validateAndMapSector_nomatch (s : String) (htrim : (jsTrim s == "") = false)
    (h : noSectorMatch s) :
    validateAndMapSector (some s) =
      { isValid := true, canonicalSector := "autre", label := sectorLabel "autre"
        isFallback := true
        warning := some ("Secteur non reconnu (\"" ++ s
          ++ "\"), analyse réalisée sans benchmark sectoriel précis") } := by
  obtain ⟨hc, hl, hf⟩ := h
  rw [validateAndMapSector, if_neg (by simp [htrim]), if_neg (by rw [hc]; simp)]
  simp only [hl, hf]

/-- Claim C6: `validateAndMapSector` is total by construction, always produces
an allowed canonical sector, every fallback carries a non-empty warning, and
when a non-blank input matches nothing the result is the `autre` fallback with
`isFallback = true` and a warning that contains the original raw text. -/
theorem C6_validateAndMapSector_total (raw : Option String) :
    (validateAndMapSector raw).canonicalSector ∈ ALLOWED_SECTORS
    ∧ ((validateAndMapSector raw).isFallback = true →
        ∃ w, (validateAndMapSector raw).warning = some w ∧ w ≠ "")
    ∧ (∀ s, raw = some s → (jsTrim s == "") = false → noSectorMatch s →
        (validateAndMapSector raw).canonicalSector = "autre"
        ∧ (validateAndMapSector raw).isFallback = true
        ∧ ∃ w, (validateAndMapSector raw).warning = some w
            ∧ strIncludes w s = true ∧ w ≠ "") := by
  refine ⟨?_, ?_, ?_⟩
  · -- the canonical sector is always in the allowed list
    match raw with
    | none => decide
    | some s =>
      rw [validateAndMapSector]
      split_ifs with htrim hdirect
      · decide
      · simpa using hdirect
      · rcases hlook : lookupPairs (normalizeForSectorMatch s) SECTOR_SYNONYMS with _ | mapped
        · rcases hfind : SECTOR_SYNONYMS.find?
              (fun p => strIncludes (normalizeForSectorMatch s) p.1
                || strIncludes p.1 (normalizeForSectorMatch s)) with _ | pr
          · simp only [hlook, hfind]
            decide
          · simp only [hlook, hfind]
            exact synonyms_values_allowed _
              (List.mem_map_of_mem Prod.snd (List.mem_of_find?_eq_some hfind))
        · simp only [hlook]
          exact synonyms_values_allowed _ (lookupPairs_mem hlook)
  · -- every fallback result carries a non-empty warning
    match raw with
    | none => exact fun _ => ⟨_, rfl, by decide⟩
    | some s =>
      rw [validateAndMapSector]
      split_ifs with htrim hdirect
      · exact fun _ => ⟨_, rfl, by decide⟩
      · intro h
        simp at h
      · rcases hlook : lookupPairs (normalizeForSectorMatch s) SECTOR_SYNONYMS with _ | mapped
        · rcases hfind : SECTOR_SYNONYMS.find?
              (fun p => strIncludes (normalizeForSectorMatch s) p.1
                || strIncludes p.1 (normalizeForSectorMatch s)) with _ | pr
          · simp only [hlook, hfind]
            intro _
            refine ⟨_, rfl, ?_⟩
            intro heq
            have h2 := congrArg String.length heq
            rw [String.length_append, String.length_append] at h2
            have hl0 : 0 < ("Secteur non reconnu (\"" : String).length := by decide
            have hz : ("" : String).length = 0 := rfl
            rw [hz] at h2
            omega
          · simp only [hlook, hfind]
            intro h
            simp at h
        · simp only [hlook]
          intro h
          simp at h
  · -- a non-blank, unmatched input yields the named-raw-text fallback
    intro s hs htrim hnm
    subst hs
    rw [validateAndMapSector_nomatch s htrim hnm]
    refine ⟨rfl, rfl, _, rfl, ?_, ?_⟩
    · show containsSub _ _ = true
      have hsplit : ("Secteur non reconnu (\"" ++ s
          ++ "\"), analyse réalisée sans benchmark sectoriel précis").toList
          = "Secteur non reconnu (\"".toList ++ s.toList
            ++ "\"), analyse réalisée sans benchmark sectoriel précis".toList := by
        simp [String.toList]
      rw [hsplit]
      exact containsSub_append_mid _ _ _
    · intro heq
      have h2 := congrArg String.length heq
      rw [String.length_append, String.length_append] at h2
      have hl0 : 0 < ("Secteur non reconnu (\"" : String).length := by decide
      have hz : ("" : String).length = 0 := rfl
      rw [hz] at h2
      omega

/-- Witness for C6 at a concrete unmatched raw string. -/
theorem C6_witness :
    ((validateAndMapSector (some "zzz")).canonicalSector ∈ ALLOWED_SECTORS)
    ∧ (jsTrim "zzz" == "") = false
    ∧ noSectorMatch "zzz"
    ∧ (validateAndMapSector (some "zzz")).canonicalSector = "autre"
    ∧ (validateAndMapSector (some "zzz")).isFallback = true
    ∧ ∃ w, (validateAndMapSector (some "zzz")).warning = some w
        ∧ strIncludes w "zzz" = true ∧ w ≠ "" := by
  have htrim : (jsTrim "zzz" == "") = false := by decide
  have hnm : noSectorMatch "zzz" := ⟨by decide, by decide, by decide⟩
  have h := C6_validateAndMapSector_total (some "zzz")
  have h3 := h.2.2 "zzz" rfl htrim hnm
  exact ⟨h.1, htrim, hnm, h3.1, h3.2.1, h3.2.2⟩

-- ============= C2: quantified recommendations pipeline =============

/-- Insertion produces a permutation of the cons. -/
theorem perm_insertDescByMax (r : QuantifiedRecommendation)
    (l : List QuantifiedRecommendation) : List.Perm (insertDescByMax r l) (r :: l) := by
  induction l with
  | nil => rfl
  | cons b t ih =>
    unfold insertDescByMax
    split_ifs
    · rfl
    · exact (ih.cons b).trans (List.Perm.swap r b t)

/-- The descending sort is a permutation of its input. -/
theorem perm_sortDescByMax (l : List QuantifiedRecommendation) :
    List.Perm (sortDescByMax l) l := by
  induction l with
  | nil => rfl
  | cons r t ih => exact (perm_insertDescByMax r (sortDescByMax t)).trans (ih.cons r)

/-- The descending-by-max pairwise order used by claim C2. -/
def DescByMax (a b : QuantifiedRecommendation) : Prop :=
  b.estimatedImpactMax ≤ a.estimatedImpactMax

/-- Insertion preserves the descending pairwise order. -/
theorem pairwise_insertDescByMax (r : QuantifiedRecommendation)
    {l : List QuantifiedRecommendation} (h : l.Pairwise DescByMax) :
    (insertDescByMax r l).Pairwise DescByMax := by
  induction l with
  | nil => simp [insertDescByMax, DescByMax]
  | cons b t ih =>
    unfold insertDescByMax
    rw [List.pairwise_cons] at h
    split_ifs with hle
    · rw [List.pairwise_cons]
      refine ⟨?_, List.pairwise_cons.mpr h⟩
      intro a ha
      rcases List.mem_cons.mp ha with rfl | ha
      · exact hle
      · exact le_trans (h.1 a ha) hle
    · rw [List.pairwise_cons]
      refine ⟨?_, ih h.2⟩
      intro a ha
      rcases List.mem_cons.mp ((perm_insertDescByMax r t).mem_iff.mp ha) with rfl | ha
      · exact le_of_not_le hle
      · exact h.1 a ha

/-- The descending sort is sorted. -/
theorem pairwise_sortDescByMax (l : List QuantifiedRecommendation) :
    (sortDescByMax l).Pairwise DescByMax := by
  induction l with
  | nil => simp [sortDescByMax]
  | cons r t ih => exact pairwise_insertDescByMax r ih

/-- Every modelled quantification rule has `minCoef ≤ maxCoef`. -/
theorem quantRules_coef_le :
    ∀ q ∈ QUANTIFICATION_RULES, q.minCoef ≤ q.maxCoef := by
  intro q hq
  fin_cases hq <;> norm_num

/-- Claim C2 (spec-modelled): the decision output quantified-recommendation
list is exactly the triggered rules, sorted descending by estimated max
impact and truncated to five, and every produced recommendation satisfies
`estimatedImpactMin ≤ estimatedImpactMax` (for the nonnegative revenue every
valid record guarantees). -/
theorem C2_quantified_recommendations (auditData : AuditData) (scores : Scores)
    (warnings : List AuditWarning)
    (hrev : 0 ≤ (normalizeToV2 auditData).finance.annualRevenue) :
    (computeDecisionOutputFull auditData scores warnings).quantifiedRecommendations
      = (sortDescByMax
          ((QUANTIFICATION_RULES.filter
            (fun r => r.condition (normalizeToV2 auditData) scores)).map
              (applyQuantRule (normalizeToV2 auditData)))).take 5
    ∧ List.Perm
        (sortDescByMax
          ((QUANTIFICATION_RULES.filter
            (fun r => r.condition (normalizeToV2 auditData) scores)).map
              (applyQuantRule (normalizeToV2 auditData))))
        ((QUANTIFICATION_RULES.filter
            (fun r => r.condition (normalizeToV2 auditData) scores)).map
              (applyQuantRule (normalizeToV2 auditData)))
    ∧ (computeDecisionOutputFull auditData scores warnings).quantifiedRecommendations.length
        ≤ 5
    ∧ (computeDecisionOutputFull auditData scores
        warnings).quantifiedRecommendations.Pairwise DescByMax
    ∧ ∀ r ∈ (computeDecisionOutputFull auditData scores
        warnings).quantifiedRecommendations,
        r.estimatedImpactMin ≤ r.estimatedImpactMax := by
  refine ⟨rfl, perm_sortDescByMax _, ?_, ?_, ?_⟩
  · show ((sortDescByMax _).take 5).length ≤ 5
    rw [List.length_take]
    exact min_le_left _ _
  · show ((sortDescByMax _).take 5).Pairwise DescByMax
    exact (pairwise_sortDescByMax _).sublist (List.take_sublist _ _)
  · intro r hr
    show r.estimatedImpactMin ≤ r.estimatedImpactMax
    have hr2 : r ∈ sortDescByMax _ := List.take_subset _ _ hr
    have hr3 := (perm_sortDescByMax _).mem_iff.mp hr2
    rw [List.mem_map] at hr3
    obtain ⟨q, hq, rfl⟩ := hr3
    have hcoef := quantRules_coef_le q (List.mem_of_mem_filter hq)
    exact mul_le_mul_of_nonneg_right hcoef hrev

/-- Witness for C2 at a concrete record. -/
theorem C2_witness :
    (0 : ℚ) ≤ (normalizeToV2 (.v2 recSvc)).finance.annualRevenue
    ∧ ((computeDecisionOutputFull (.v2 recSvc) ⟨50, 50, 50, 50, 50⟩ []
        ).quantifiedRecommendations.length ≤ 5
      ∧ ∀ r ∈ (computeDecisionOutputFull (.v2 recSvc) ⟨50, 50, 50, 50, 50⟩ []
          ).quantifiedRecommendations,
          r.estimatedImpactMin ≤ r.estimatedImpactMax) := by
  have hrev : (0 : ℚ) ≤ (normalizeToV2 (.v2 recSvc)).finance.annualRevenue := by
    norm_num [normalizeToV2, recSvc]
  have h := C2_quantified_recommendations (.v2 recSvc) ⟨50, 50, 50, 50, 50⟩ [] hrev
  exact ⟨hrev, h.2.2.1, h.2.2.2.2⟩

-- ============= Weighted-average bounds toolbox =============

/-- A nonempty list of positive weights has a positive weight sum. -/
theorem weightSum_pos {l : List ScoreContribution} (hne : l ≠ [])
    (hw : ∀ c ∈ l, 0 < c.weight) : 0 < weightSum l := by
  induction l with
  | nil => exact absurd rfl hne
  | cons c t ih =>
    rw [weightSum, List.map_cons, List.sum_cons]
    rcases t with _ | ⟨d, t⟩
    · simpa using hw c (by simp)
    · have ht := ih (by simp) (fun x hx => hw x (List.mem_cons_of_mem c hx))
      have hc := hw c (by simp)
      rw [weightSum] at ht
      linarith

/-- The weighted sum is nonnegative when every score and weight is. -/
theorem weightedSum_nonneg {l : List ScoreContribution}
    (hs : ∀ c ∈ l, 0 ≤ c.score) (hw : ∀ c ∈ l, 0 < c.weight) :
    0 ≤ weightedSum l := by
  induction l with
  | nil => simp [weightedSum]
  | cons c t ih =>
    rw [weightedSum, List.map_cons, List.sum_cons]
    have h1 : 0 ≤ c.score * c.weight :=
      mul_nonneg (hs c (by simp)) (le_of_lt (hw c (by simp)))
    have h2 := ih (fun x hx => hs x (List.mem_cons_of_mem c hx))
      (fun x hx => hw x (List.mem_cons_of_mem c hx))
    rw [weightedSum] at h2
    linarith

/-- The weighted sum is bounded by `B` times the weight sum when every score
is at most `B`. -/
theorem weightedSum_le {B : ℚ} {l : List ScoreContribution}
    (hs : ∀ c ∈ l, c.score ≤ B) (hw : ∀ c ∈ l, 0 < c.weight) :
    weightedSum l ≤ B * weightSum l := by
  induction l with
  | nil => simp [weightedSum, weightSum]
  | cons c t ih =>
    rw [weightedSum, weightSum, List.map_cons, List.map_cons, List.sum_cons, List.sum_cons]
    have h1 : c.score * c.weight ≤ B * c.weight :=
      mul_le_mul_of_nonneg_right (hs c (by simp)) (le_of_lt (hw c (by simp)))
    have h2 := ih (fun x hx => hs x (List.mem_cons_of_mem c hx))
      (fun x hx => hw x (List.mem_cons_of_mem c hx))
    rw [weightedSum, weightSum] at h2
    rw [mul_add]
    linarith

/-- The weighted average of contributions with scores in `[0, B]` and positive
weights lies in `[0, B]`. -/
theorem calculateWeightedScore_bounds {B : ℚ} (hB : 0 ≤ B)
    {l : List ScoreContribution}
    (hs : ∀ c ∈ l, 0 ≤ c.score ∧ c.score ≤ B) (hw : ∀ c ∈ l, 0 < c.weight) :
    0 ≤ calculateWeightedScore l ∧ calculateWeightedScore l ≤ B := by
  rcases l with _ | ⟨c, t⟩
  · exact ⟨le_refl 0, hB⟩
  · rw [calculateWeightedScore]
    have hpos : 0 < weightSum (c :: t) := weightSum_pos (by simp) hw
    constructor
    · exact div_nonneg (weightedSum_nonneg (fun x hx => (hs x hx).1) hw) (le_of_lt hpos)
    · rw [div_le_iff hpos]
      exact weightedSum_le (fun x hx => (hs x hx).2) hw

/-- `round1` preserves nonnegativity. -/
theorem round1_nonneg {x : ℚ} (h : 0 ≤ x) : 0 ≤ round1 x := by
  rw [round1, jsRound_eq]
  have hfl : (0 : ℤ) ≤ ⌊x * 10 + 1 / 2⌋ := Int.floor_nonneg.mpr (by linarith)
  have : (0 : ℚ) ≤ (⌊x * 10 + 1 / 2⌋ : ℚ) := by exact_mod_cast hfl
  linarith

/-- `round1` preserves natural-number upper bounds. -/
theorem round1_le {x : ℚ} {n : ℕ} (h : x ≤ n) : round1 x ≤ n := by
  rw [round1, jsRound_eq]
  have h1 : ⌊x * 10 + 1 / 2⌋ ≤ ⌊((10 * n : ℤ) : ℚ) + 1 / 2⌋ :=
    Int.floor_le_floor (by push_cast; linarith)
  have h2 : ⌊((10 * n : ℤ) : ℚ) + 1 / 2⌋ = 10 * n + ⌊(1 / 2 : ℚ)⌋ := Int.floor_int_add _ _
  have h3 : ⌊(1 / 2 : ℚ)⌋ = 0 := by norm_num
  rw [h2, h3, add_zero] at h1
  have h4 : ((⌊x * 10 + 1 / 2⌋ : ℤ) : ℚ) ≤ ((10 * n : ℤ) : ℚ) := by exact_mod_cast h1
  push_cast at h4
  linarith

/-- `round1` of a value in `[0, n]` stays in `[0, n]`. -/
theorem round1_mem {x : ℚ} {n : ℕ} (h0 : 0 ≤ x) (hn : x ≤ n) :
    0 ≤ round1 x ∧ round1 x ≤ n :=
  ⟨round1_nonneg h0, round1_le hn⟩

-- ============= Benchmark table facts =============

/-- The facts about a benchmark metric set that the scoring bounds and the
threshold-ordering claims rely on; every entry of the static table satisfies
them. -/
def BenchFacts (bm : BenchmarkMetrics) : Prop :=
  bm.marge_brute.thresholds.crit ≤ bm.marge_brute.thresholds.bon
  ∧ bm.marge_brute.thresholds.bon ≤ bm.marge_brute.thresholds.excellent
  ∧ bm.ca_etp.thresholds.crit ≤ bm.ca_etp.thresholds.bon
  ∧ bm.ca_etp.thresholds.bon ≤ bm.ca_etp.thresholds.excellent
  ∧ bm.digital_pct.thresholds.crit ≤ bm.digital_pct.thresholds.bon
  ∧ bm.digital_pct.thresholds.bon ≤ bm.digital_pct.thresholds.excellent
  ∧ bm.fidelisation.thresholds.crit ≤ bm.fidelisation.thresholds.bon
  ∧ bm.fidelisation.thresholds.bon ≤ bm.fidelisation.thresholds.excellent
  ∧ bm.charges_rh.thresholds.excellent ≤ bm.charges_rh.thresholds.bon
  ∧ bm.charges_rh.thresholds.bon ≤ bm.charges_rh.thresholds.crit
  ∧ 0 < bm.ca_etp.thresholds.crit
  ∧ bm.marge_brute.thresholds.crit * 90 ≤ 100
  ∧ bm.digital_pct.thresholds.crit * (3 / 2) ≤ 105
  ∧ bm.fidelisation.thresholds.crit * (4 / 5) ≤ 100

/-- All metric sets appearing in the static table. -/
def allVariantMetrics : List BenchmarkMetrics :=
  (PARAM_SECTEUR_sectors.map Prod.snd).bind
    (fun sec => sec.variants.map (fun p => p.2.metrics))

/-- A successful benchmark lookup returns a metric set of the table. -/
theorem getBenchmarks_mem {s : String} {v : Option String} {bm : BenchmarkMetrics}
    (h : getBenchmarks s v = .ok bm) : bm ∈ allVariantMetrics := by
  rw [getBenchmarks] at h
  split at h
  · exact absurd h (by simp)
  · rename_i sect hs
    dsimp only at h
    split at h
    · exact absurd h (by simp)
    · rename_i sv hv
      have hbm : bm = sv.metrics := by
        cases h
        rfl
      subst hbm
      rw [allVariantMetrics, List.mem_bind]
      refine ⟨sect, lookupPairs_mem hs, ?_⟩
      have h2 := List.mem_map_of_mem SectorVariant.metrics (lookupPairs_mem hv)
      rw [List.map_map] at h2
      exact h2

/-- Every metric set of the static table satisfies `BenchFacts`. -/
theorem allVariantMetrics_facts : ∀ bm ∈ allVariantMetrics, BenchFacts bm := by
  intro bm h
  fin_cases h <;> norm_num [BenchFacts, mkMetrics]

/-- `BenchFacts` holds for every resolvable benchmark set. -/
theorem getBenchmarks_facts {s : String} {v : Option String} {bm : BenchmarkMetrics}
    (h : getBenchmarks s v = .ok bm) : BenchFacts bm :=
  allVariantMetrics_facts bm (getBenchmarks_mem h)

-- ============= Per-metric score bounds =============

/-- Marge-brute scores stay in `[0, 100]` when the table bound
`crit × 90 ≤ 100` holds. -/
theorem margeBruteScore_bounds {t : ThresholdSet} (hc : t.crit * 90 ≤ 100) (r : ℚ) :
    0 ≤ margeBruteScore t r ∧ margeBruteScore t r ≤ 100 := by
  rw [margeBruteScore]
  split_ifs with h1 h2 h3
  · norm_num
  · norm_num
  · norm_num
  · refine ⟨le_max_left _ _, max_le (by norm_num) ?_⟩
    push_neg at h3
    nlinarith

/-- CA/ETP scores stay in `[0, 100]` when the critical threshold is positive. -/
theorem caEtpScoreFn_bounds {t : ThresholdSet} (hc : 0 < t.crit) (v : ℚ) :
    0 ≤ caEtpScoreFn t v ∧ caEtpScoreFn t v ≤ 100 := by
  rw [caEtpScoreFn]
  split_ifs with h1 h2 h3
  · norm_num
  · norm_num
  · norm_num
  · refine ⟨le_max_left _ _, max_le (by norm_num) ?_⟩
    push_neg at h3
    have hv : v / t.crit < 1 := (div_lt_one hc).mpr h3
    nlinarith

/-- Charges-RH scores stay in `[0, 100]`. -/
theorem chargesRhScore_bounds (t : ThresholdSet) (r : ℚ) :
    0 ≤ chargesRhScore t r ∧ chargesRhScore t r ≤ 100 := by
  rw [chargesRhScore]
  split_ifs with h1 h2 h3
  · norm_num
  · norm_num
  · norm_num
  · refine ⟨le_max_left _ _, max_le (by norm_num) ?_⟩
    push_neg at h3
    nlinarith

/-- Net-margin scores stay in `[0, 100]`. -/
theorem netMarginScore_bounds (v : ℚ) :
    0 ≤ netMarginScore v ∧ netMarginScore v ≤ 100 := by
  rw [netMarginScore]
  split_ifs <;> norm_num

/-- Runway scores stay in `[0, 100]`. -/
theorem runwayScore_bounds (m : ℚ) : 0 ≤ runwayScore m ∧ runwayScore m ≤ 100 := by
  rw [runwayScore]
  split_ifs <;> norm_num

/-- Occupancy scores stay in `[0, 100]`. -/
theorem occupancyScore_bounds (r : ℚ) :
    0 ≤ occupancyScore r ∧ occupancyScore r ≤ 100 := by
  rw [occupancyScore]
  split_ifs with h1 h2 h3 h4
  · norm_num
  · norm_num
  · norm_num
  · norm_num
  · refine ⟨le_max_left _ _, max_le (by norm_num) ?_⟩
    push_neg at h4
    nlinarith

/-- Quality scores stay in `[0, 100]`. -/
theorem qualityScore_bounds (q : QualityData) :
    0 ≤ qualityScore q ∧ qualityScore q ≤ 100 := by
  rw [qualityScore]
  rcases q.returnRatePercent with _ | rr <;> rcases q.incidentsPerMonth with _ | ic <;>
    dsimp only <;> first
  | (split_ifs <;> norm_num)
  | norm_num

/-- Digitalisation scores stay in `[0, 105]` when the table bound
`crit × 3/2 ≤ 105` holds. -/
theorem digitalScore_bounds {t : ThresholdSet} (hc : t.crit * (3 / 2) ≤ 105) (v : ℚ) :
    0 ≤ digitalScore t v ∧ digitalScore t v ≤ 105 := by
  rw [digitalScore]
  split_ifs with h1 h2 h3
  · norm_num
  · norm_num
  · norm_num
  · refine ⟨le_max_left _ _, max_le (by norm_num) ?_⟩
    push_neg at h3
    nlinarith

/-- Fidélisation scores stay in `[0, 100]` when the table bound
`crit × 4/5 ≤ 100` holds. -/
theorem fidelisationScore_bounds {t : ThresholdSet} (hc : t.crit * (4 / 5) ≤ 100) (v : ℚ) :
    0 ≤ fidelisationScore t v ∧ fidelisationScore t v ≤ 100 := by
  rw [fidelisationScore]
  split_ifs with h1 h2 h3
  · norm_num
  · norm_num
  · norm_num
  · refine ⟨le_max_left _ _, max_le (by norm_num) ?_⟩
    push_neg at h3
    nlinarith

/-- CSAT scores stay in `[0, 100]`. -/
theorem csatScore_bounds (v : ℚ) : 0 ≤ csatScore v ∧ csatScore v ≤ 100 := by
  rw [csatScore]
  split_ifs with h1 h2 h3
  · norm_num
  · norm_num
  · norm_num
  · refine ⟨le_max_left _ _, max_le (by norm_num) ?_⟩
    push_neg at h3
    nlinarith

/-- NPS scores stay in `[0, 100]`. -/
theorem npsScore_bounds (v : ℚ) : 0 ≤ npsScore v ∧ npsScore v ≤ 100 := by
  rw [npsScore]
  split_ifs <;> norm_num

/-- Service-count scores stay in `[0, 100]`. -/
theorem servicesScore_bounds (n : ℚ) :
    0 ≤ servicesScore n ∧ servicesScore n ≤ 100 := by
  rw [servicesScore]
  constructor
  · exact le_min (by norm_num) (le_max_left _ _) |>.trans (le_refl _)
  · exact min_le_left _ _

/-- Runway-risk scores stay in `[0, 100]`. -/
theorem runwayRiskScore_bounds (m : ℚ) :
    0 ≤ runwayRiskScore m ∧ runwayRiskScore m ≤ 100 := by
  rw [runwayRiskScore]
  split_ifs <;> norm_num

/-- HR-stability scores stay in `[0, 100]`. -/
theorem hrStabilityScore_bounds (h : HRData) :
    0 ≤ hrStabilityScore h ∧ hrStabilityScore h ≤ 100 := by
  rw [hrStabilityScore]
  rcases h.turnoverRatePercent with _ | tv <;> rcases h.absenteeismRatePercent with _ | ab <;>
    dsimp only <;> first
  | (split_ifs <;> norm_num)
  | norm_num

/-- Balance scores stay in `[0, 100]`. -/
theorem balanceScore_bounds (sf so sc : ℚ) :
    0 ≤ balanceScore sf so sc ∧ balanceScore sf so sc ≤ 100 := by
  rw [balanceScore]
  split_ifs <;> norm_num

-- ============= Dimension bounds =============

/-- Every financier contribution has a score in `[0, 100]` and positive weight. -/
theorem financierContributions_bounds (v2 : AuditDataV2) (bm : BenchmarkMetrics)
    (hf : BenchFacts bm) :
    ∀ c ∈ financierContributions v2 bm,
      (0 ≤ c.score ∧ c.score ≤ 100) ∧ 0 < c.weight := by
  obtain ⟨h1, h2, h3, h4, h5, h6, h7, h8, h9, h10, h11, h12, h13, h14⟩ := hf
  intro c hc
  rw [financierContributions] at hc
  revert hc
  rcases v2.finance.netMarginPercent with _ | nm <;>
    rcases v2.finance.cashRunwayMonths with _ | m <;>
    intro hc <;>
    simp only [List.mem_append, List.mem_cons, List.mem_singleton, List.not_mem_nil,
      or_false, or_assoc] at hc
  · rcases hc with rfl | rfl | rfl
    · exact ⟨margeBruteScore_bounds h12 _, by norm_num⟩
    · exact ⟨caEtpScoreFn_bounds h11 _, by norm_num⟩
    · exact ⟨chargesRhScore_bounds _ _, by norm_num⟩
  · rcases hc with rfl | rfl | rfl | rfl
    · exact ⟨margeBruteScore_bounds h12 _, by norm_num⟩
    · exact ⟨caEtpScoreFn_bounds h11 _, by norm_num⟩
    · exact ⟨chargesRhScore_bounds _ _, by norm_num⟩
    · exact ⟨runwayScore_bounds _, by norm_num⟩
  · rcases hc with rfl | rfl | rfl | rfl
    · exact ⟨margeBruteScore_bounds h12 _, by norm_num⟩
    · exact ⟨caEtpScoreFn_bounds h11 _, by norm_num⟩
    · exact ⟨chargesRhScore_bounds _ _, by norm_num⟩
    · exact ⟨netMarginScore_bounds _, by norm_num⟩
  · rcases hc with rfl | rfl | rfl | rfl | rfl
    · exact ⟨margeBruteScore_bounds h12 _, by norm_num⟩
    · exact ⟨caEtpScoreFn_bounds h11 _, by norm_num⟩
    · exact ⟨chargesRhScore_bounds _ _, by norm_num⟩
    · exact ⟨netMarginScore_bounds _, by norm_num⟩
    · exact ⟨runwayScore_bounds _, by norm_num⟩

/-- Every opérationnel contribution has a score in `[0, 100]` and positive weight. -/
theorem opsContributions_bounds (v2 : AuditDataV2) (bm : BenchmarkMetrics)
    (hf : BenchFacts bm) :
    ∀ c ∈ opsContributions v2 bm,
      (0 ≤ c.score ∧ c.score ≤ 100) ∧ 0 < c.weight := by
  obtain ⟨h1, h2, h3, h4, h5, h6, h7, h8, h9, h10, h11, h12, h13, h14⟩ := hf
  intro c hc
  rw [opsContributions] at hc
  revert hc
  rcases v2.ops.quality with _ | q <;>
    intro hc <;>
    simp only [List.mem_append, List.mem_cons, List.mem_singleton, List.not_mem_nil,
      or_false, or_assoc] at hc
  · rcases hc with rfl | rfl
    · exact ⟨occupancyScore_bounds _, by norm_num⟩
    · exact ⟨caEtpScoreFn_bounds h11 _, by norm_num⟩
  · rcases hc with rfl | rfl | rfl
    · exact ⟨occupancyScore_bounds _, by norm_num⟩
    · exact ⟨caEtpScoreFn_bounds h11 _, by norm_num⟩
    · exact ⟨qualityScore_bounds _, by norm_num⟩

/-- Every commercial contribution has a score in `[0, 105]` and positive weight. -/
theorem commercialContributions_bounds (v2 : AuditDataV2) (bm : BenchmarkMetrics)
    (hf : BenchFacts bm) :
    ∀ c ∈ commercialContributions v2 bm,
      (0 ≤ c.score ∧ c.score ≤ 105) ∧ 0 < c.weight := by
  obtain ⟨h1, h2, h3, h4, h5, h6, h7, h8, h9, h10, h11, h12, h13, h14⟩ := hf
  have hfid : ∀ x : ℚ, 0 ≤ fidelisationScore bm.fidelisation.thresholds x
      ∧ fidelisationScore bm.fidelisation.thresholds x ≤ 105 := fun x =>
    ⟨(fidelisationScore_bounds h14 x).1,
      le_trans (fidelisationScore_bounds h14 x).2 (by norm_num)⟩
  have hcs : ∀ x : ℚ, 0 ≤ csatScore x ∧ csatScore x ≤ 105 := fun x =>
    ⟨(csatScore_bounds x).1, le_trans (csatScore_bounds x).2 (by norm_num)⟩
  have hn : ∀ x : ℚ, 0 ≤ npsScore x ∧ npsScore x ≤ 105 := fun x =>
    ⟨(npsScore_bounds x).1, le_trans (npsScore_bounds x).2 (by norm_num)⟩
  intro c hc
  rw [commercialContributions] at hc
  revert hc
  rcases v2.commercial.loyaltyPercent with _ | fid <;>
    rcases v2.commercial.satisfaction.bind SatisfactionData.csatPercent with _ | cs <;>
    rcases v2.commercial.satisfaction.bind SatisfactionData.nps with _ | n <;>
    intro hc <;>
    simp only [List.mem_append, List.mem_cons, List.mem_singleton, List.not_mem_nil,
      or_false, or_assoc] at hc
  · rcases hc with rfl
    exact ⟨digitalScore_bounds h13 _, by norm_num⟩
  · rcases hc with rfl | rfl
    · exact ⟨digitalScore_bounds h13 _, by norm_num⟩
    · exact ⟨hn _, by norm_num⟩
  · rcases hc with rfl | rfl
    · exact ⟨digitalScore_bounds h13 _, by norm_num⟩
    · exact ⟨hcs _, by norm_num⟩
  · rcases hc with rfl | rfl | rfl
    · exact ⟨digitalScore_bounds h13 _, by norm_num⟩
    · exact ⟨hcs _, by norm_num⟩
    · exact ⟨hn _, by norm_num⟩
  · rcases hc with rfl | rfl
    · exact ⟨digitalScore_bounds h13 _, by norm_num⟩
    · exact ⟨hfid _, by norm_num⟩
  · rcases hc with rfl | rfl | rfl
    · exact ⟨digitalScore_bounds h13 _, by norm_num⟩
    · exact ⟨hfid _, by norm_num⟩
    · exact ⟨hn _, by norm_num⟩
  · rcases hc with rfl | rfl | rfl
    · exact ⟨digitalScore_bounds h13 _, by norm_num⟩
    · exact ⟨hfid _, by norm_num⟩
    · exact ⟨hcs _, by norm_num⟩
  · rcases hc with rfl | rfl | rfl | rfl
    · exact ⟨digitalScore_bounds h13 _, by norm_num⟩
    · exact ⟨hfid _, by norm_num⟩
    · exact ⟨hcs _, by norm_num⟩
    · exact ⟨hn _, by norm_num⟩

/-- Every stratégique contribution has a score in `[0, 100]` and positive weight. -/
theorem strategiqueContributions_bounds (v2 : AuditDataV2) (sf so sc : ℚ) :
    ∀ c ∈ strategiqueContributions v2 sf so sc,
      (0 ≤ c.score ∧ c.score ≤ 100) ∧ 0 < c.weight := by
  intro c hc
  rw [strategiqueContributions] at hc
  revert hc
  rcases v2.finance.cashRunwayMonths with _ | m <;>
    rcases v2.hr with _ | h <;>
    intro hc <;>
    simp only [List.mem_append, List.mem_cons, List.mem_singleton, List.not_mem_nil,
      or_false, or_assoc] at hc
  · rcases hc with rfl | rfl
    · exact ⟨servicesScore_bounds _, by norm_num⟩
    · exact ⟨balanceScore_bounds _ _ _, by norm_num⟩
  · rcases hc with rfl | rfl | rfl
    · exact ⟨servicesScore_bounds _, by norm_num⟩
    · exact ⟨hrStabilityScore_bounds _, by norm_num⟩
    · exact ⟨balanceScore_bounds _ _ _, by norm_num⟩
  · rcases hc with rfl | rfl | rfl
    · exact ⟨servicesScore_bounds _, by norm_num⟩
    · exact ⟨runwayRiskScore_bounds _, by norm_num⟩
    · exact ⟨balanceScore_bounds _ _ _, by norm_num⟩
  · rcases hc with rfl | rfl | rfl | rfl
    · exact ⟨servicesScore_bounds _, by norm_num⟩
    · exact ⟨runwayRiskScore_bounds _, by norm_num⟩
    · exact ⟨hrStabilityScore_bounds _, by norm_num⟩
    · exact ⟨balanceScore_bounds _ _ _, by norm_num⟩

-- ============= C4: returned score ranges and rounding =============

/-- `round1` always returns an integer number of tenths. -/
theorem round1_tenths (x : ℚ) : ∃ k : ℤ, round1 x = (k : ℚ) / 10 :=
  ⟨jsRound (x * 10), rfl⟩

/-- Clamping a tenths value to `[0, 100]` keeps it a whole number of tenths. -/
theorem clamp_round1_tenths (x : ℚ) :
    ∃ k : ℤ, max 0 (min 100 (round1 x)) = (k : ℚ) / 10 := by
  obtain ⟨k, hk⟩ := round1_tenths x
  refine ⟨max 0 (min 1000 k), ?_⟩
  rw [hk]
  have hcast : ((max 0 (min 1000 k) : ℤ) : ℚ) = max 0 (min 1000 (k : ℚ)) := by
    push_cast
    rfl
  rw [hcast, ← max_div_div_right (by norm_num : (0:ℚ) ≤ 10),
    ← min_div_div_right (by norm_num : (0:ℚ) ≤ 10)]
  norm_num

/-- Claim C4 (amended): for every record whose sector resolves in the
benchmark table, the global score lies in `[0, 100]` and the financier,
opérationnel and stratégique scores lie in `[0, 100]`; the commercial score,
whose below-critical digitalization fallback is uncapped, lies in `[0, 105]`
and can exceed 100; every returned score is a whole number of tenths. -/
theorem C4_score_ranges (v2 : AuditDataV2) (bm : BenchmarkMetrics)
    (hok : getBenchmarks v2.sector v2.variant = .ok bm) :
    (0 ≤ (computeScoresV2Core v2 bm).global ∧ (computeScoresV2Core v2 bm).global ≤ 100)
    ∧ (0 ≤ (computeScoresV2Core v2 bm).financier
        ∧ (computeScoresV2Core v2 bm).financier ≤ 100)
    ∧ (0 ≤ (computeScoresV2Core v2 bm).operationnel
        ∧ (computeScoresV2Core v2 bm).operationnel ≤ 100)
    ∧ (0 ≤ (computeScoresV2Core v2 bm).commercial
        ∧ (computeScoresV2Core v2 bm).commercial ≤ 105)
    ∧ (0 ≤ (computeScoresV2Core v2 bm).strategique
        ∧ (computeScoresV2Core v2 bm).strategique ≤ 100)
    ∧ (∀ d ∈ [(computeScoresV2Core v2 bm).global, (computeScoresV2Core v2 bm).financier,
        (computeScoresV2Core v2 bm).operationnel, (computeScoresV2Core v2 bm).commercial,
        (computeScoresV2Core v2 bm).strategique], ∃ k : ℤ, d = (k : ℚ) / 10) := by
  have hf := getBenchmarks_facts hok
  have hsf := calculateWeightedScore_bounds (by norm_num)
    (fun c hc => (financierContributions_bounds v2 bm hf c hc).1)
    (fun c hc => (financierContributions_bounds v2 bm hf c hc).2)
  have hso := calculateWeightedScore_bounds (by norm_num)
    (fun c hc => (opsContributions_bounds v2 bm hf c hc).1)
    (fun c hc => (opsContributions_bounds v2 bm hf c hc).2)
  have hsc := calculateWeightedScore_bounds (by norm_num)
    (fun c hc => (commercialContributions_bounds v2 bm hf c hc).1)
    (fun c hc => (commercialContributions_bounds v2 bm hf c hc).2)
  have hst := calculateWeightedScore_bounds (by norm_num)
    (fun c hc => (strategiqueContributions_bounds v2
      (calculateWeightedScore (financierContributions v2 bm))
      (calculateWeightedScore (opsContributions v2 bm))
      (calculateWeightedScore (commercialContributions v2 bm)) c hc).1)
    (fun c hc => (strategiqueContributions_bounds v2
      (calculateWeightedScore (financierContributions v2 bm))
      (calculateWeightedScore (opsContributions v2 bm))
      (calculateWeightedScore (commercialContributions v2 bm)) c hc).2)
  refine ⟨?_, ?_, ?_, ?_, ?_, ?_⟩
  · constructor
    · exact le_max_left 0 _
    · exact max_le (by norm_num) (min_le_left 100 _)
  · exact ⟨round1_nonneg hsf.1, round1_le (n := 100) (by exact_mod_cast hsf.2)⟩
  · exact ⟨round1_nonneg hso.1, round1_le (n := 100) (by exact_mod_cast hso.2)⟩
  · exact ⟨round1_nonneg hsc.1, round1_le (n := 105) (by exact_mod_cast hsc.2)⟩
  · exact ⟨round1_nonneg hst.1, round1_le (n := 100) (by exact_mod_cast hst.2)⟩
  · intro d hd
    simp only [List.mem_cons, List.not_mem_nil, or_false] at hd
    rcases hd with rfl | rfl | rfl | rfl | rfl
    · show ∃ k : ℤ, (computeScoresV2Core v2 bm).global = (k : ℚ) / 10
      rw [computeScoresV2Core]
      exact clamp_round1_tenths _
    · exact round1_tenths _
    · exact round1_tenths _
    · exact round1_tenths _
    · exact round1_tenths _

/-- The Services lookup resolves to the Services metric set. -/
theorem gb_svc : getBenchmarks "Services" none = .ok svcBM := rfl

/-- The Vétérinaire default lookup resolves to the veto-standard metric set. -/
theorem gb_veto : getBenchmarks "Vétérinaire" none = .ok vetoBM := rfl

/-- Claim C4 counterexample: on a structurally valid Services record with
digitalization 69 (just below the critical threshold 70) the returned
commercial score is 103.5, outside `[0, 100]`. -/
theorem C4_counterexample :
    computeScoresV2 (.v2 recSvc) = .ok ⟨459/5, 422/5, 941/10, 207/2, 100⟩
    ∧ ¬ ((207 : ℚ)/2 ≤ 100) := by
  constructor
  · have h1 : computeScoresV2 (.v2 recSvc) = .ok (computeScoresV2Core recSvc svcBM) := by
      rw [computeScoresV2]
      rw [show normalizeToV2 (.v2 recSvc) = recSvc from rfl]
      rw [show recSvc.sector = "Services" from rfl, show recSvc.variant = none from rfl]
      rw [gb_svc]
      rfl
    rw [h1]
    have hpen : missingDataPenalty recSvc = 2 := by
      rw [missingDataPenalty, show missingCount recSvc = 9 from by decide]
      norm_num
    simp only [computeScoresV2Core]
    rw [hpen]
    norm_num [financierContributions, opsContributions,
      commercialContributions, strategiqueContributions, calculateWeightedScore, weightSum,
      weightedSum, margeBruteScore, caEtpScoreFn, chargesRhScore, occupancyScore,
      digitalScore, servicesScore, balanceScore, caEtpValue,
      round1, jsRound_eq, recSvc, svcBM, mkMetrics, min_def, max_def]
  · norm_num

/-- Witness for C4 at the Services record. -/
theorem C4_witness :
    getBenchmarks recSvc.sector recSvc.variant = .ok svcBM
    ∧ (0 ≤ (computeScoresV2Core recSvc svcBM).global
        ∧ (computeScoresV2Core recSvc svcBM).global ≤ 100)
    ∧ (0 ≤ (computeScoresV2Core recSvc svcBM).commercial
        ∧ (computeScoresV2Core recSvc svcBM).commercial ≤ 105) := by
  have h := C4_score_ranges recSvc svcBM rfl
  exact ⟨rfl, h.1, h.2.2.2.1⟩

-- ============= C5: global bounds; no monotonicity in missing fields =============

/-- Claim C5 counterexample: `recVetoB` differs from `recVetoA` only by making
the optional cash-runway field absent (one more missing tracked optional
field), yet the returned global score rises from 92.5 to 98. -/
theorem C5_counterexample :
    recVetoB = { recVetoA with
      finance := { recVetoA.finance with cashRunwayMonths := none } }
    ∧ missingCount recVetoB = missingCount recVetoA + 1
    ∧ computeScoresV2 (.v2 recVetoA) = .ok ⟨185/2, 479/5, 100, 100, 80⟩
    ∧ computeScoresV2 (.v2 recVetoB) = .ok ⟨98, 100, 100, 100, 100⟩
    ∧ (185 : ℚ)/2 < 98 := by
  refine ⟨rfl, by decide, ?_, ?_, by norm_num⟩
  · have h1 : computeScoresV2 (.v2 recVetoA) = .ok (computeScoresV2Core recVetoA vetoBM) := by
      rw [computeScoresV2]
      rw [show normalizeToV2 (.v2 recVetoA) = recVetoA from rfl]
      rw [show recVetoA.sector = "Vétérinaire" from rfl,
        show recVetoA.variant = none from rfl]
      rw [gb_veto]
      rfl
    rw [h1]
    have hpen : missingDataPenalty recVetoA = 2 := by
      rw [missingDataPenalty, show missingCount recVetoA = 8 from by decide]
      norm_num
    simp only [computeScoresV2Core]
    rw [hpen]
    norm_num [financierContributions, opsContributions,
      commercialContributions, strategiqueContributions, calculateWeightedScore, weightSum,
      weightedSum, margeBruteScore, caEtpScoreFn, chargesRhScore, occupancyScore,
      digitalScore, fidelisationScore, servicesScore, runwayScore, runwayRiskScore,
      balanceScore, caEtpValue, round1,
      jsRound_eq, recVetoA, vetoBM, mkMetrics, min_def, max_def]
  · have h1 : computeScoresV2 (.v2 recVetoB) = .ok (computeScoresV2Core recVetoB vetoBM) := by
      rw [computeScoresV2]
      rw [show normalizeToV2 (.v2 recVetoB) = recVetoB from rfl]
      rw [show recVetoB.sector = "Vétérinaire" from rfl,
        show recVetoB.variant = none from rfl]
      rw [gb_veto]
      rfl
    rw [h1]
    have hpen : missingDataPenalty recVetoB = 2 := by
      rw [missingDataPenalty, show missingCount recVetoB = 9 from by decide]
      norm_num
    simp only [computeScoresV2Core]
    rw [hpen]
    norm_num [financierContributions, opsContributions,
      commercialContributions, strategiqueContributions, calculateWeightedScore, weightSum,
      weightedSum, margeBruteScore, caEtpScoreFn, chargesRhScore, occupancyScore,
      digitalScore, fidelisationScore, servicesScore, runwayScore, runwayRiskScore,
      balanceScore, caEtpValue, round1,
      jsRound_eq, recVetoA, recVetoB, vetoBM, mkMetrics, min_def, max_def]

/-- Claim C5 (amended): the returned global score always lies in `[0, 100]`,
and the explicit missing-data penalty is monotone in the number of missing
tracked optional fields — but the global score itself is not monotone
(see the counterexample): dropping a low-scoring optional contribution can
raise a dimension average by more than the penalty. -/
theorem C5_global_bounds_penalty_monotone :
    (∀ (data : AuditData) (s : Scores), computeScoresV2 data = .ok s →
      0 ≤ s.global ∧ s.global ≤ 100)
    ∧ (∀ v2 v2' : AuditDataV2, missingCount v2 ≤ missingCount v2' →
        missingDataPenalty v2 ≤ missingDataPenalty v2') := by
  constructor
  · intro data s h
    rw [computeScoresV2] at h
    cases hg : getBenchmarks (normalizeToV2 data).sector (normalizeToV2 data).variant with
    | error e =>
      rw [hg] at h
      exact absurd h (by simp [Except.map])
    | ok bm =>
      rw [hg] at h
      have hs : s = computeScoresV2Core (normalizeToV2 data) bm := by
        rw [Except.map] at h
        cases h
        rfl
      subst hs
      rw [computeScoresV2Core]
      refine ⟨le_max_left 0 _, max_le (by norm_num) (min_le_left 100 _)⟩
  · intro v2 v2' h
    rw [missingDataPenalty, missingDataPenalty]
    split_ifs <;> first | (exfalso; omega) | norm_num

/-- Witness for C5 at the concrete records. -/
theorem C5_witness :
    (computeScoresV2 (.v2 recVetoA) = .ok ⟨185/2, 479/5, 100, 100, 80⟩ →
      0 ≤ (185 : ℚ)/2 ∧ (185 : ℚ)/2 ≤ 100)
    ∧ missingCount recVetoA ≤ missingCount recVetoB
    ∧ missingDataPenalty recVetoA ≤ missingDataPenalty recVetoB := by
  refine ⟨?_, by decide, ?_⟩
  · intro h
    have := C5_global_bounds_penalty_monotone.1 (.v2 recVetoA) ⟨185/2, 479/5, 100, 100, 80⟩ h
    simpa using this
  · exact C5_global_bounds_penalty_monotone.2 recVetoA recVetoB (by decide)

-- ============= C1: weighted average over present contributions =============

/-- `v2` with the optional net margin made absent. -/
def clearNetMargin (v2 : AuditDataV2) : AuditDataV2 :=
  { v2 with finance := { v2.finance with netMarginPercent := none } }

/-- `v2` with the optional cash runway made absent. -/
def clearRunway (v2 : AuditDataV2) : AuditDataV2 :=
  { v2 with finance := { v2.finance with cashRunwayMonths := none } }

/-- `v2` with the optional quality block made absent. -/
def clearQuality (v2 : AuditDataV2) : AuditDataV2 :=
  { v2 with ops := { v2.ops with quality := none } }

/-- `v2` with the optional loyalty percentage made absent. -/
def clearLoyalty (v2 : AuditDataV2) : AuditDataV2 :=
  { v2 with commercial := { v2.commercial with loyaltyPercent := none } }

/-- `v2` with the optional CSAT made absent. -/
def clearCsat (v2 : AuditDataV2) : AuditDataV2 :=
  { v2 with commercial := { v2.commercial with
    satisfaction := v2.commercial.satisfaction.map (fun s => { s with csatPercent := none }) } }

/-- `v2` with the optional NPS made absent. -/
def clearNps (v2 : AuditDataV2) : AuditDataV2 :=
  { v2 with commercial := { v2.commercial with
    satisfaction := v2.commercial.satisfaction.map (fun s => { s with nps := none }) } }

/-- `v2` with the optional HR block made absent. -/
def clearHr (v2 : AuditDataV2) : AuditDataV2 := { v2 with hr := none }

/-- Clearing the net margin deletes exactly its contribution (index 3),
shrinks the weight denominator by its declared weight 5, and leaves the three
mandatory contributions unchanged. -/
theorem fin_clearNetMargin_spec (v2 : AuditDataV2) (bm : BenchmarkMetrics)
    (nm : ℚ) (hnm : v2.finance.netMarginPercent = some nm) :
    financierContributions (clearNetMargin v2) bm
      = (financierContributions v2 bm).eraseIdx 3
    ∧ weightSum (financierContributions (clearNetMargin v2) bm)
      = weightSum (financierContributions v2 bm) - 5
    ∧ (financierContributions (clearNetMargin v2) bm).take 3
      = (financierContributions v2 bm).take 3 := by
  rcases hrw : v2.finance.cashRunwayMonths with _ | m <;>
    refine ⟨?_, ?_, ?_⟩ <;>
    simp [financierContributions, clearNetMargin, caEtpValue, hnm, hrw, weightSum,
      List.eraseIdx] <;>
    ring

/-- Clearing the cash runway deletes exactly its (final) financier
contribution, shrinks the weight denominator by 5, and leaves the mandatory
contributions unchanged. -/
theorem fin_clearRunway_spec (v2 : AuditDataV2) (bm : BenchmarkMetrics)
    (m : ℚ) (hm : v2.finance.cashRunwayMonths = some m) :
    financierContributions (clearRunway v2) bm
      = (financierContributions v2 bm).dropLast
    ∧ weightSum (financierContributions (clearRunway v2) bm)
      = weightSum (financierContributions v2 bm) - 5
    ∧ (financierContributions (clearRunway v2) bm).take 3
      = (financierContributions v2 bm).take 3 := by
  rcases hnm : v2.finance.netMarginPercent with _ | nm <;>
    refine ⟨?_, ?_, ?_⟩ <;>
    simp [financierContributions, clearRunway, caEtpValue, hnm, hm, weightSum] <;>
    ring

/-- Clearing the quality block deletes exactly its (final) opérationnel
contribution, shrinks the weight denominator by 15, and leaves the two
mandatory contributions unchanged. -/
theorem ops_clearQuality_spec (v2 : AuditDataV2) (bm : BenchmarkMetrics)
    (q : QualityData) (hq : v2.ops.quality = some q) :
    opsContributions (clearQuality v2) bm = (opsContributions v2 bm).dropLast
    ∧ weightSum (opsContributions (clearQuality v2) bm)
      = weightSum (opsContributions v2 bm) - 15
    ∧ (opsContributions (clearQuality v2) bm).take 2 = (opsContributions v2 bm).take 2 := by
  refine ⟨?_, ?_, ?_⟩ <;>
    simp [opsContributions, clearQuality, caEtpValue, hq, weightSum] <;>
    ring

/-- Clearing loyalty deletes exactly its contribution (index 1), shrinks the
weight denominator by 35, and leaves the mandatory digitalization
contribution unchanged. -/
theorem com_clearLoyalty_spec (v2 : AuditDataV2) (bm : BenchmarkMetrics)
    (fid : ℚ) (hfid : v2.commercial.loyaltyPercent = some fid) :
    commercialContributions (clearLoyalty v2) bm
      = (commercialContributions v2 bm).eraseIdx 1
    ∧ weightSum (commercialContributions (clearLoyalty v2) bm)
      = weightSum (commercialContributions v2 bm) - 35
    ∧ (commercialContributions (clearLoyalty v2) bm).take 1
      = (commercialContributions v2 bm).take 1 := by
  rcases hsat : v2.commercial.satisfaction with _ | sat
  · refine ⟨?_, ?_, ?_⟩ <;>
      simp [commercialContributions, clearLoyalty, hfid, hsat, weightSum,
        List.eraseIdx] <;>
      ring
  · rcases hcs : sat.csatPercent with _ | cs <;>
      rcases hn : sat.nps with _ | n <;>
      refine ⟨?_, ?_, ?_⟩ <;>
      simp [commercialContributions, clearLoyalty, hfid, hsat, hcs, hn, weightSum,
        List.eraseIdx] <;>
      ring

/-- Clearing the CSAT deletes exactly its contribution (right after the
present mandatory and loyalty entries), shrinks the weight denominator by 10,
and leaves the mandatory digitalization contribution unchanged. -/
theorem com_clearCsat_spec (v2 : AuditDataV2) (bm : BenchmarkMetrics)
    (cs : ℚ) (hcs : v2.commercial.satisfaction.bind SatisfactionData.csatPercent = some cs) :
    commercialContributions (clearCsat v2) bm
      = (commercialContributions v2 bm).eraseIdx
          (1 + if v2.commercial.loyaltyPercent.isSome then 1 else 0)
    ∧ weightSum (commercialContributions (clearCsat v2) bm)
      = weightSum (commercialContributions v2 bm) - 10
    ∧ (commercialContributions (clearCsat v2) bm).take 1
      = (commercialContributions v2 bm).take 1 := by
  rcases hsat : v2.commercial.satisfaction with _ | sat
  · rw [hsat] at hcs
    exact absurd hcs (by simp)
  · rw [hsat] at hcs
    simp only [Option.some_bind] at hcs
    rcases hfid : v2.commercial.loyaltyPercent with _ | fid <;>
      rcases hn : sat.nps with _ | n <;>
      refine ⟨?_, ?_, ?_⟩ <;>
      simp [commercialContributions, clearCsat, hfid, hsat, hcs, hn, weightSum,
        List.eraseIdx] <;>
      ring

/-- Clearing the NPS deletes exactly its (final) commercial contribution,
shrinks the weight denominator by 10, and leaves the mandatory digitalization
contribution unchanged. -/
theorem com_clearNps_spec (v2 : AuditDataV2) (bm : BenchmarkMetrics)
    (n : ℚ) (hn : v2.commercial.satisfaction.bind SatisfactionData.nps = some n) :
    commercialContributions (clearNps v2) bm
      = (commercialContributions v2 bm).dropLast
    ∧ weightSum (commercialContributions (clearNps v2) bm)
      = weightSum (commercialContributions v2 bm) - 10
    ∧ (commercialContributions (clearNps v2) bm).take 1
      = (commercialContributions v2 bm).take 1 := by
  rcases hsat : v2.commercial.satisfaction with _ | sat
  · rw [hsat] at hn
    exact absurd hn (by simp)
  · rw [hsat] at hn
    simp only [Option.some_bind] at hn
    rcases hfid : v2.commercial.loyaltyPercent with _ | fid <;>
      rcases hcs : sat.csatPercent with _ | cs <;>
      refine ⟨?_, ?_, ?_⟩ <;>
      simp [commercialContributions, clearNps, hfid, hsat, hcs, hn, weightSum] <;>
      ring

/-- Clearing the cash runway deletes exactly its stratégique contribution
(index 1), shrinks the weight denominator by 20, and leaves the mandatory
service-count contribution unchanged. -/
theorem strat_clearRunway_spec (v2 : AuditDataV2) (sf so sc : ℚ)
    (m : ℚ) (hm : v2.finance.cashRunwayMonths = some m) :
    strategiqueContributions (clearRunway v2) sf so sc
      = (strategiqueContributions v2 sf so sc).eraseIdx 1
    ∧ weightSum (strategiqueContributions (clearRunway v2) sf so sc)
      = weightSum (strategiqueContributions v2 sf so sc) - 20
    ∧ (strategiqueContributions (clearRunway v2) sf so sc).take 1
      = (strategiqueContributions v2 sf so sc).take 1 := by
  rcases hhr : v2.hr with _ | h <;>
    refine ⟨?_, ?_, ?_⟩ <;>
    simp [strategiqueContributions, clearRunway, hm, hhr, weightSum, List.eraseIdx] <;>
    ring

/-- Clearing the HR block deletes exactly its stratégique contribution (right
after the present service-count and runway entries), shrinks the weight
denominator by 20, and leaves the mandatory service-count contribution
unchanged. -/
theorem strat_clearHr_spec (v2 : AuditDataV2) (sf so sc : ℚ)
    (h : HRData) (hh : v2.hr = some h) :
    strategiqueContributions (clearHr v2) sf so sc
      = (strategiqueContributions v2 sf so sc).eraseIdx
          (1 + if v2.finance.cashRunwayMonths.isSome then 1 else 0)
    ∧ weightSum (strategiqueContributions (clearHr v2) sf so sc)
      = weightSum (strategiqueContributions v2 sf so sc) - 20
    ∧ (strategiqueContributions (clearHr v2) sf so sc).take 1
      = (strategiqueContributions v2 sf so sc).take 1 := by
  rcases hrw : v2.finance.cashRunwayMonths with _ | m <;>
    refine ⟨?_, ?_, ?_⟩ <;>
    simp [strategiqueContributions, clearHr, hh, hrw, weightSum, List.eraseIdx] <;>
    ring

/-- Claim C1 (amended): each dimension score returned by `computeScoresV2`
is the weighted average of exactly the present contributions, rounded to one
decimal; and making any one optional field absent removes exactly that field
contribution, shrinking the weight denominator by exactly that field declared
weight and leaving the mandatory contributions unchanged. -/
theorem C1_weight_redistribution (v2 : AuditDataV2) (bm : BenchmarkMetrics)
    (hok : getBenchmarks v2.sector v2.variant = .ok bm) :
    computeScoresV2 (.v2 v2) = .ok (computeScoresV2Core v2 bm)
    ∧ (computeScoresV2Core v2 bm).financier
        = round1 (calculateWeightedScore (financierContributions v2 bm))
    ∧ (computeScoresV2Core v2 bm).operationnel
        = round1 (calculateWeightedScore (opsContributions v2 bm))
    ∧ (computeScoresV2Core v2 bm).commercial
        = round1 (calculateWeightedScore (commercialContributions v2 bm))
    ∧ (computeScoresV2Core v2 bm).strategique
        = round1 (calculateWeightedScore (strategiqueContributions v2
            (calculateWeightedScore (financierContributions v2 bm))
            (calculateWeightedScore (opsContributions v2 bm))
            (calculateWeightedScore (commercialContributions v2 bm))))
    ∧ (∀ nm, v2.finance.netMarginPercent = some nm →
        financierContributions (clearNetMargin v2) bm
          = (financierContributions v2 bm).eraseIdx 3
        ∧ weightSum (financierContributions (clearNetMargin v2) bm)
          = weightSum (financierContributions v2 bm) - 5
        ∧ (financierContributions (clearNetMargin v2) bm).take 3
          = (financierContributions v2 bm).take 3)
    ∧ (∀ m, v2.finance.cashRunwayMonths = some m →
        financierContributions (clearRunway v2) bm
          = (financierContributions v2 bm).dropLast
        ∧ weightSum (financierContributions (clearRunway v2) bm)
          = weightSum (financierContributions v2 bm) - 5
        ∧ (financierContributions (clearRunway v2) bm).take 3
          = (financierContributions v2 bm).take 3)
    ∧ (∀ q, v2.ops.quality = some q →
        opsContributions (clearQuality v2) bm = (opsContributions v2 bm).dropLast
        ∧ weightSum (opsContributions (clearQuality v2) bm)
          = weightSum (opsContributions v2 bm) - 15
        ∧ (opsContributions (clearQuality v2) bm).take 2
          = (opsContributions v2 bm).take 2)
    ∧ (∀ fid, v2.commercial.loyaltyPercent = some fid →
        commercialContributions (clearLoyalty v2) bm
          = (commercialContributions v2 bm).eraseIdx 1
        ∧ weightSum (commercialContributions (clearLoyalty v2) bm)
          = weightSum (commercialContributions v2 bm) - 35
        ∧ (commercialContributions (clearLoyalty v2) bm).take 1
          = (commercialContributions v2 bm).take 1)
    ∧ (∀ cs, v2.commercial.satisfaction.bind SatisfactionData.csatPercent = some cs →
        commercialContributions (clearCsat v2) bm
          = (commercialContributions v2 bm).eraseIdx
              (1 + if v2.commercial.loyaltyPercent.isSome then 1 else 0)
        ∧ weightSum (commercialContributions (clearCsat v2) bm)
          = weightSum (commercialContributions v2 bm) - 10
        ∧ (commercialContributions (clearCsat v2) bm).take 1
          = (commercialContributions v2 bm).take 1)
    ∧ (∀ n, v2.commercial.satisfaction.bind SatisfactionData.nps = some n →
        commercialContributions (clearNps v2) bm
          = (commercialContributions v2 bm).dropLast
        ∧ weightSum (commercialContributions (clearNps v2) bm)
          = weightSum (commercialContributions v2 bm) - 10
        ∧ (commercialContributions (clearNps v2) bm).take 1
          = (commercialContributions v2 bm).take 1)
    ∧ (∀ (sf so sc : ℚ) m, v2.finance.cashRunwayMonths = some m →
        strategiqueContributions (clearRunway v2) sf so sc
          = (strategiqueContributions v2 sf so sc).eraseIdx 1
        ∧ weightSum (strategiqueContributions (clearRunway v2) sf so sc)
          = weightSum (strategiqueContributions v2 sf so sc) - 20
        ∧ (strategiqueContributions (clearRunway v2) sf so sc).take 1
          = (strategiqueContributions v2 sf so sc).take 1)
    ∧ (∀ (sf so sc : ℚ) h, v2.hr = some h →
        strategiqueContributions (clearHr v2) sf so sc
          = (strategiqueContributions v2 sf so sc).eraseIdx
              (1 + if v2.finance.cashRunwayMonths.isSome then 1 else 0)
        ∧ weightSum (strategiqueContributions (clearHr v2) sf so sc)
          = weightSum (strategiqueContributions v2 sf so sc) - 20
        ∧ (strategiqueContributions (clearHr v2) sf so sc).take 1
          = (strategiqueContributions v2 sf so sc).take 1) := by
  refine ⟨?_, rfl, rfl, rfl, rfl,
    fun nm h => fin_clearNetMargin_spec v2 bm nm h,
    fun m h => fin_clearRunway_spec v2 bm m h,
    fun q h => ops_clearQuality_spec v2 bm q h,
    fun fid h => com_clearLoyalty_spec v2 bm fid h,
    fun cs h => com_clearCsat_spec v2 bm cs h,
    fun n h => com_clearNps_spec v2 bm n h,
    fun sf so sc m h => strat_clearRunway_spec v2 sf so sc m h,
    fun sf so sc h hh => strat_clearHr_spec v2 sf so sc h hh⟩
  rw [computeScoresV2]
  rw [show normalizeToV2 (.v2 v2) = v2 from rfl, hok]
  rfl

/-- Claim C1 counterexample: the financier score `computeScoresV2` returns is
the rounded 95.8, not the exact weighted average 1820/19 ≈ 95.789, so the
returned dimension score does not literally equal the weighted average. -/
theorem C1_counterexample :
    getBenchmarks recVetoA.sector recVetoA.variant = .ok vetoBM
    ∧ computeScoresV2 (.v2 recVetoA) = .ok ⟨185/2, 479/5, 100, 100, 80⟩
    ∧ calculateWeightedScore (financierContributions recVetoA vetoBM) = 1820/19
    ∧ (479 : ℚ)/5 ≠ 1820/19 := by
  refine ⟨rfl, ?_, ?_, by norm_num⟩
  · have h1 : computeScoresV2 (.v2 recVetoA) = .ok (computeScoresV2Core recVetoA vetoBM) := by
      rw [computeScoresV2]
      rw [show normalizeToV2 (.v2 recVetoA) = recVetoA from rfl]
      rw [show recVetoA.sector = "Vétérinaire" from rfl,
        show recVetoA.variant = none from rfl]
      rw [gb_veto]
      rfl
    rw [h1]
    have hpen : missingDataPenalty recVetoA = 2 := by
      rw [missingDataPenalty, show missingCount recVetoA = 8 from by decide]
      norm_num
    simp only [computeScoresV2Core]
    rw [hpen]
    norm_num [financierContributions, opsContributions,
      commercialContributions, strategiqueContributions, calculateWeightedScore, weightSum,
      weightedSum, margeBruteScore, caEtpScoreFn, chargesRhScore, occupancyScore,
      digitalScore, fidelisationScore, servicesScore, runwayScore, runwayRiskScore,
      balanceScore, caEtpValue, round1,
      jsRound_eq, recVetoA, vetoBM, mkMetrics, min_def, max_def]
  · norm_num [financierContributions, calculateWeightedScore, weightSum, weightedSum,
      margeBruteScore, caEtpScoreFn, chargesRhScore, runwayScore, caEtpValue,
      recVetoA, vetoBM, mkMetrics]

/-- A record with every tracked optional field present (Vétérinaire sector). -/
def recFull : AuditDataV2 :=
  { businessName := "x", sector := "Vétérinaire", variant := none, auditDate := ""
    dataOrigin := "manual"
    finance := { annualRevenue := 450000, grossMarginPercent := 68
                 netMarginPercent := some 12, cashRunwayMonths := some 2 }
    costs := { hrCostsPercent := 52, cogsPercent := some 32, fixedCostsPercent := some 20 }
    ops := { occupancyRatePercent := 85
             productivity := { fte := 9/2, revenuePerFte := none }
             quality := some { returnRatePercent := some 1, incidentsPerMonth := some 2 } }
    hr := some { absenteeismRatePercent := some 3, turnoverRatePercent := some 5 }
    commercial := { digitalizationPercent := 85, loyaltyPercent := some 88
                    satisfaction := some { csatPercent := some 95, nps := some 60 } }
    nbServices := some 5 }

/-- Witness for C1 at a record with every optional field present. -/
theorem C1_witness :
    getBenchmarks recFull.sector recFull.variant = .ok vetoBM
    ∧ computeScoresV2 (.v2 recFull) = .ok (computeScoresV2Core recFull vetoBM)
    ∧ (computeScoresV2Core recFull vetoBM).financier
        = round1 (calculateWeightedScore (financierContributions recFull vetoBM))
    ∧ weightSum (financierContributions (clearNetMargin recFull) vetoBM)
        = weightSum (financierContributions recFull vetoBM) - 5
    ∧ weightSum (financierContributions (clearRunway recFull) vetoBM)
        = weightSum (financierContributions recFull vetoBM) - 5
    ∧ weightSum (opsContributions (clearQuality recFull) vetoBM)
        = weightSum (opsContributions recFull vetoBM) - 15
    ∧ weightSum (commercialContributions (clearLoyalty recFull) vetoBM)
        = weightSum (commercialContributions recFull vetoBM) - 35
    ∧ weightSum (commercialContributions (clearCsat recFull) vetoBM)
        = weightSum (commercialContributions recFull vetoBM) - 10
    ∧ weightSum (commercialContributions (clearNps recFull) vetoBM)
        = weightSum (commercialContributions recFull vetoBM) - 10
    ∧ weightSum (strategiqueContributions (clearRunway recFull) 50 50 50)
        = weightSum (strategiqueContributions recFull 50 50 50) - 20
    ∧ weightSum (strategiqueContributions (clearHr recFull) 50 50 50)
        = weightSum (strategiqueContributions recFull 50 50 50) - 20 := by
  have h := C1_weight_redistribution recFull vetoBM rfl
  exact ⟨rfl, h.1, h.2.1,
    (h.2.2.2.2.2.1 12 rfl).2.1,
    (h.2.2.2.2.2.2.1 2 rfl).2.1,
    (h.2.2.2.2.2.2.2.1 _ rfl).2.1,
    (h.2.2.2.2.2.2.2.2.1 88 rfl).2.1,
    (h.2.2.2.2.2.2.2.2.2.1 95 rfl).2.1,
    (h.2.2.2.2.2.2.2.2.2.2.1 60 rfl).2.1,
    (h.2.2.2.2.2.2.2.2.2.2.2.1 50 50 50 2 rfl).2.1,
    (h.2.2.2.2.2.2.2.2.2.2.2.2 50 50 50 _ rfl).2.1⟩

-- ============= C3: step-function threshold ordering =============

/-- Marge-brute threshold chain: with ordered thresholds, the score at the
good threshold sits between the scores at the critical and excellent ones. -/
theorem margeBruteScore_chain (t : ThresholdSet) (h1 : t.crit ≤ t.bon)
    (h2 : t.bon ≤ t.excellent) :
    margeBruteScore t t.crit ≤ margeBruteScore t t.bon
    ∧ margeBruteScore t t.bon ≤ margeBruteScore t t.excellent := by
  unfold margeBruteScore
  split_ifs <;> first | (exfalso; linarith) | norm_num | linarith

/-- CA/ETP threshold chain. -/
theorem caEtpScoreFn_chain (t : ThresholdSet) (h1 : t.crit ≤ t.bon)
    (h2 : t.bon ≤ t.excellent) :
    caEtpScoreFn t t.crit ≤ caEtpScoreFn t t.bon
    ∧ caEtpScoreFn t t.bon ≤ caEtpScoreFn t t.excellent := by
  unfold caEtpScoreFn
  split_ifs <;> first | (exfalso; linarith) | norm_num | linarith

/-- Digitalisation threshold chain. -/
theorem digitalScore_chain (t : ThresholdSet) (h1 : t.crit ≤ t.bon)
    (h2 : t.bon ≤ t.excellent) :
    digitalScore t t.crit ≤ digitalScore t t.bon
    ∧ digitalScore t t.bon ≤ digitalScore t t.excellent := by
  unfold digitalScore
  split_ifs <;> first | (exfalso; linarith) | norm_num | linarith

/-- Fidélisation threshold chain. -/
theorem fidelisationScore_chain (t : ThresholdSet) (h1 : t.crit ≤ t.bon)
    (h2 : t.bon ≤ t.excellent) :
    fidelisationScore t t.crit ≤ fidelisationScore t t.bon
    ∧ fidelisationScore t t.bon ≤ fidelisationScore t t.excellent := by
  unfold fidelisationScore
  split_ifs <;> first | (exfalso; linarith) | norm_num | linarith

/-- Charges-RH (inverse) threshold chain: lower thresholds score higher. -/
theorem chargesRhScore_chain (t : ThresholdSet) (h9 : t.excellent ≤ t.bon)
    (h10 : t.bon ≤ t.crit) :
    chargesRhScore t t.crit ≤ chargesRhScore t t.bon
    ∧ chargesRhScore t t.bon ≤ chargesRhScore t t.excellent := by
  unfold chargesRhScore
  split_ifs <;> first | (exfalso; linarith) | norm_num | linarith

/-- Below the critical CA/ETP threshold, the fallback never exceeds the
critical-threshold score. -/
theorem caEtpScoreFn_below_crit (t : ThresholdSet) (hc : 0 < t.crit)
    (h1 : t.crit ≤ t.bon) (h2 : t.bon ≤ t.excellent) (x : ℚ) (hx : x < t.crit) :
    caEtpScoreFn t x ≤ caEtpScoreFn t t.crit := by
  have hd : x / t.crit < 1 := (div_lt_one hc).mpr hx
  unfold caEtpScoreFn
  split_ifs <;>
    first
    | (exfalso; linarith)
    | (norm_num <;> linarith)
    | linarith

/-- Past the critical charges-RH threshold (higher is worse), the fallback
never exceeds the critical-threshold score. -/
theorem chargesRhScore_past_crit (t : ThresholdSet) (h9 : t.excellent ≤ t.bon)
    (h10 : t.bon ≤ t.crit) (x : ℚ) (hx : t.crit < x) :
    chargesRhScore t x ≤ chargesRhScore t t.crit := by
  unfold chargesRhScore
  split_ifs <;>
    first
    | (exfalso; linarith)
    | (norm_num <;> linarith)
    | linarith

/-- Claim C3 (amended): for every benchmark set of the static table the step
scores at the three thresholds are ordered (critical ≤ good ≤ excellent, in
the inverse direction for charges RH), and for the CA/ETP and charges-RH
metrics the below-critical fallback also stays at or below the
critical-threshold score. For marge brute, digitalisation and fidélisation
the uncapped linear fallback can exceed the 50-point critical score just
below the threshold (see the counterexample), so the final claimed
inequality does not hold there. -/
theorem C3_threshold_ordering (s : String) (v : Option String) (bm : BenchmarkMetrics)
    (hok : getBenchmarks s v = .ok bm) :
    (margeBruteScore bm.marge_brute.thresholds bm.marge_brute.thresholds.crit
        ≤ margeBruteScore bm.marge_brute.thresholds bm.marge_brute.thresholds.bon
      ∧ margeBruteScore bm.marge_brute.thresholds bm.marge_brute.thresholds.bon
        ≤ margeBruteScore bm.marge_brute.thresholds bm.marge_brute.thresholds.excellent)
    ∧ (caEtpScoreFn bm.ca_etp.thresholds bm.ca_etp.thresholds.crit
        ≤ caEtpScoreFn bm.ca_etp.thresholds bm.ca_etp.thresholds.bon
      ∧ caEtpScoreFn bm.ca_etp.thresholds bm.ca_etp.thresholds.bon
        ≤ caEtpScoreFn bm.ca_etp.thresholds bm.ca_etp.thresholds.excellent)
    ∧ (digitalScore bm.digital_pct.thresholds bm.digital_pct.thresholds.crit
        ≤ digitalScore bm.digital_pct.thresholds bm.digital_pct.thresholds.bon
      ∧ digitalScore bm.digital_pct.thresholds bm.digital_pct.thresholds.bon
        ≤ digitalScore bm.digital_pct.thresholds bm.digital_pct.thresholds.excellent)
    ∧ (fidelisationScore bm.fidelisation.thresholds bm.fidelisation.thresholds.crit
        ≤ fidelisationScore bm.fidelisation.thresholds bm.fidelisation.thresholds.bon
      ∧ fidelisationScore bm.fidelisation.thresholds bm.fidelisation.thresholds.bon
        ≤ fidelisationScore bm.fidelisation.thresholds
            bm.fidelisation.thresholds.excellent)
    ∧ (chargesRhScore bm.charges_rh.thresholds bm.charges_rh.thresholds.crit
        ≤ chargesRhScore bm.charges_rh.thresholds bm.charges_rh.thresholds.bon
      ∧ chargesRhScore bm.charges_rh.thresholds bm.charges_rh.thresholds.bon
        ≤ chargesRhScore bm.charges_rh.thresholds bm.charges_rh.thresholds.excellent)
    ∧ (∀ x, x < bm.ca_etp.thresholds.crit →
        caEtpScoreFn bm.ca_etp.thresholds x
          ≤ caEtpScoreFn bm.ca_etp.thresholds bm.ca_etp.thresholds.crit)
    ∧ (∀ x, bm.charges_rh.thresholds.crit < x →
        chargesRhScore bm.charges_rh.thresholds x
          ≤ chargesRhScore bm.charges_rh.thresholds bm.charges_rh.thresholds.crit) := by
  obtain ⟨h1, h2, h3, h4, h5, h6, h7, h8, h9, h10, h11, h12, h13, h14⟩ :=
    getBenchmarks_facts hok
  exact ⟨margeBruteScore_chain _ h1 h2, caEtpScoreFn_chain _ h3 h4,
    digitalScore_chain _ h5 h6, fidelisationScore_chain _ h7 h8,
    chargesRhScore_chain _ h9 h10,
    fun x hx => caEtpScoreFn_below_crit _ h11 h3 h4 x hx,
    fun x hx => chargesRhScore_past_crit _ h9 h10 x hx⟩

/-- Claim C3 counterexample: for the Services sector the digitalisation score
just below the critical threshold (69, scoring 103.5) exceeds the score at
the critical threshold itself (70, scoring 50), refuting the claimed
`score at critical ≥ score just below critical` for the step-scored metrics. -/
theorem C3_counterexample :
    getBenchmarks "Services" none = .ok svcBM
    ∧ digitalScore svcBM.digital_pct.thresholds 70 = 50
    ∧ digitalScore svcBM.digital_pct.thresholds 69 = 207/2
    ∧ ¬ (digitalScore svcBM.digital_pct.thresholds 69
          ≤ digitalScore svcBM.digital_pct.thresholds 70) := by
  refine ⟨rfl, ?_, ?_, ?_⟩ <;>
    norm_num [digitalScore, svcBM, mkMetrics, max_def]

/-- Witness for C3 at the Vétérinaire benchmark set. -/
theorem C3_witness :
    getBenchmarks "Vétérinaire" none = .ok vetoBM
    ∧ (margeBruteScore vetoBM.marge_brute.thresholds vetoBM.marge_brute.thresholds.crit
        ≤ margeBruteScore vetoBM.marge_brute.thresholds vetoBM.marge_brute.thresholds.bon)
    ∧ ((50000 : ℚ) < vetoBM.ca_etp.thresholds.crit
      ∧ caEtpScoreFn vetoBM.ca_etp.thresholds 50000
        ≤ caEtpScoreFn vetoBM.ca_etp.thresholds vetoBM.ca_etp.thresholds.crit)
    ∧ (vetoBM.charges_rh.thresholds.crit < (8 : ℚ)/10
      ∧ chargesRhScore vetoBM.charges_rh.thresholds ((8 : ℚ)/10)
        ≤ chargesRhScore vetoBM.charges_rh.thresholds
            vetoBM.charges_rh.thresholds.crit) := by
  have h := C3_threshold_ordering "Vétérinaire" none vetoBM rfl
  refine ⟨rfl, h.1.1, ⟨?_, ?_⟩, ⟨?_, ?_⟩⟩
  · norm_num [vetoBM, mkMetrics]
  · exact h.2.2.2.2.2.1 50000 (by norm_num [vetoBM, mkMetrics])
  · norm_num [vetoBM, mkMetrics]
  · exact h.2.2.2.2.2.2 ((8 : ℚ)/10) (by norm_num [vetoBM, mkMetrics])
